import Mathlib

set_option maxRecDepth 4000

/-
Verification development for the native_emerald GBA emulator core.

This file is a shallow embedding, in Lean 4, of the parts of the C source
that the verified claims are about:

  * src/cpu_core.c    - barrel_shift, check_condition, flag updates,
                        execute_arm, execute_thumb, cpu_step,
                        cpu_handle_interrupt, cpu_execute_frame
  * src/memory.c      - the second (feature-complete) variant of
                        mem_read8/16/32 and mem_write8/16/32
  * src/bios.c        - bios_read8 / bios_write8
  * src/timers.c      - timer_update, timer_write_reload,
                        timer_write_control, timer_read_counter
  * src/stubs.c       - dma_init, dma_execute, dma_write_control, dma_trigger
  * src/unnamed/part_001 - interrupt_* (the variant with last_scanline)
  * src/main.c        - emu_frame scanline loop
  * src/unnamed/part_019 - input_update

Modelling conventions:

  * C `u32`/`u16`/`u8` values are Lean `Nat`s kept below 2^32 / 2^16 / 2^8;
    wrap-around is applied exactly where the C width conversions occur
    (`mask32`, `mask16`, `mask8`, `add32`, `sub32`).
  * Signed C arithmetic is modelled with `Int` and `Int.tdiv` / `Int.tmod`,
    which truncate toward zero exactly like C signed division.
  * Byte arrays are total functions `Nat → Nat`; the C code only ever
    indexes them in bounds, so no bound is carried in the type.
  * `printf`/`fprintf` diagnostics, the debug-trace hooks and the
    `static` log counters in the C source affect no emulator state and
    are omitted.
  * The C `Memory` struct holds pointers to InterruptState / TimerState /
    DMAState, all attached at emulator init; they are embedded as fields
    of `Mem`.  The RTC pointer is modelled as unattached (NULL): the RTC
    reads the host wall clock (`time(NULL)` in src/rtc.c), which has no
    pure embedding, and the C null guards `if (mem->rtc)` then skip every
    RTC call.  No claim touches the RTC.
  * Functions that can recurse unboundedly in C (a DMA transfer whose
    destination is a DMA control register re-enters mem_write8) take a
    fuel argument; with enough fuel the model agrees with every
    terminating C execution, and all theorems use such fuel.
-/

namespace NE

/-- Truncation to 32 bits, the effect of storing into a C `u32`. -/
def mask32 (x : Nat) : Nat := x % 4294967296

/-- Truncation to 16 bits, the effect of storing into a C `u16`. -/
def mask16 (x : Nat) : Nat := x % 65536

/-- Truncation to 8 bits, the effect of storing into a C `u8`. -/
def mask8 (x : Nat) : Nat := x % 256

/-- 32-bit wrap-around addition. -/
def add32 (a b : Nat) : Nat := mask32 (a + b)

/-- 32-bit wrap-around subtraction (left operand assumed below 2^32). -/
def sub32 (a b : Nat) : Nat := (a + 4294967296 - mask32 b) % 4294967296

/-- Reinterpret a `u32` bit pattern as a C `s32` value. -/
def toS32 (n : Nat) : Int := if n < 2147483648 then (n : Int) else (n : Int) - 4294967296

/-- Store an `Int` into a C `u32`, i.e. reduce it modulo 2^32 into `[0, 2^32)`. -/
def toU32 (i : Int) : Nat := (Int.emod i 4294967296).toNat

/-- Pointwise update of a byte array modelled as a function. -/
def upd (f : Nat → Nat) (i v : Nat) : Nat → Nat := fun j => if j = i then v else f j

/-- C arithmetic shift right of a 32-bit value (`(s32)v >> s`), for `s ≤ 31`. -/
def asr32 (v s : Nat) : Nat :=
  if v < 2147483648 then v >>> s else mask32 ((v >>> s) ||| (4294967295 <<< (32 - s)))

/-! ## Interrupt controller (src/unnamed/part_001, the variant with last_scanline) -/

/-- Interrupt flag constants from interrupts.h. -/
def INT_VBLANK : Nat := 0x0001

def INT_HBLANK : Nat := 0x0002

def INT_VCOUNT : Nat := 0x0004

/-- InterruptState from interrupts.h: ie, if_flag, ime, dispstat, vcount,
last_scanline, all C `u16`. -/
structure InterruptState where
  ie : Nat
  if_flag : Nat
  ime : Nat
  dispstat : Nat
  vcount : Nat
  last_scanline : Nat
deriving Repr, DecidableEq

/-- interrupt_raise: `state->if_flag |= flag`. -/
def interrupt_raise (s : InterruptState) (flag : Nat) : InterruptState :=
  { s with if_flag := s.if_flag ||| flag }

/-- interrupt_acknowledge: `state->if_flag &= ~flag` at u16 width. -/
def interrupt_acknowledge (s : InterruptState) (flag : Nat) : InterruptState :=
  { s with if_flag := s.if_flag &&& (65535 ^^^ mask16 flag) }

/-- interrupt_check: false when `!(ime & 1)`, otherwise `(ie & if_flag) != 0`. -/
def interrupt_check (s : InterruptState) : Bool :=
  if s.ime &&& 1 = 0 then false else decide (s.ie &&& s.if_flag ≠ 0)

/-- interrupt_update_vcount from src/unnamed/part_001: records the scanline in
vcount/last_scanline, handles the VCount match flag and IRQ, and raises VBlank
only on the transition to scanline 160.  The HBlank section of the C function
is a comment only; no code there touches if_flag. -/
def interrupt_update_vcount (s0 : InterruptState) (scanline : Nat) : InterruptState :=
  let prev_scanline := s0.last_scanline
  let s := { s0 with vcount := scanline, last_scanline := scanline }
  let vcount_setting := (s.dispstat >>> 8) &&& 0xFF
  let s :=
    if scanline = vcount_setting then
      let s := { s with dispstat := s.dispstat ||| 0x04 }
      if s.dispstat &&& 0x20 ≠ 0 then interrupt_raise s INT_VCOUNT else s
    else
      { s with dispstat := s.dispstat &&& 0xFFFB }
  if scanline = 160 ∧ prev_scanline ≠ 160 then
    interrupt_raise { s with dispstat := s.dispstat ||| 0x01 } INT_VBLANK
  else if scanline = 0 then
    { s with dispstat := s.dispstat &&& 0xFFFE }
  else s

/-! ## Timers (src/timers.c) -/

/-- Timer from timers.h: reload, counter, control are `u16`, cycles is `u32`,
overflow is the cascade flag. -/
structure Timer where
  reload : Nat
  counter : Nat
  control : Nat
  cycles : Nat
  overflow : Bool
deriving Repr, DecidableEq

/-- TimerState from timers.h: `Timer timers[4]`, with the fixed-size array
rendered as four named fields. -/
structure TimerState where
  t0 : Timer
  t1 : Timer
  t2 : Timer
  t3 : Timer
deriving Repr, DecidableEq

/-- Array read `state->timers[i]` (callers only use indices 0-3). -/
def TimerState.get (ts : TimerState) (i : Nat) : Timer :=
  if i = 0 then ts.t0 else if i = 1 then ts.t1 else if i = 2 then ts.t2 else ts.t3

/-- Array write `state->timers[i] = t` (callers only use indices 0-3). -/
def TimerState.set (ts : TimerState) (i : Nat) (t : Timer) : TimerState :=
  if i = 0 then { ts with t0 := t }
  else if i = 1 then { ts with t1 := t }
  else if i = 2 then { ts with t2 := t }
  else { ts with t3 := t }

/-- `prescaler_cycles[] = {1, 64, 256, 1024}` indexed by `control & TIMER_PRESCALER_MASK`. -/
def prescaler_cycles (sel : Nat) : Nat :=
  if sel = 0 then 1 else if sel = 1 then 64 else if sel = 2 then 256 else 1024

/-- One pass of the `while (timer->cycles >= prescaler)` loop body in
timer_update: subtract the prescaler, increment the u16 counter, and on wrap
reload the counter, set overflow and raise `1 << (3 + i)` when TIMER_IRQ is
set.  Fuel bounds the iteration count; `timer.cycles` iterations always
suffice because the prescaler is at least 1. -/
def timer_tick_loop (fuel : Nat) (timer : Timer) (prescaler : Nat) (i : Nat)
    (ints : InterruptState) : Timer × InterruptState :=
  match fuel with
  | 0 => (timer, ints)
  | fuel + 1 =>
    if prescaler ≤ timer.cycles then
      let timer := { timer with cycles := timer.cycles - prescaler }
      let c := mask16 (timer.counter + 1)
      if c = 0 then
        let timer := { timer with counter := timer.reload, overflow := true }
        let ints :=
          if timer.control &&& 0x40 ≠ 0 then interrupt_raise ints (1 <<< (3 + i)) else ints
        timer_tick_loop fuel timer prescaler i ints
      else
        timer_tick_loop fuel { timer with counter := c, overflow := false } prescaler i ints
    else (timer, ints)

/-- Body of the `for (i = 0; i < 4; i++)` loop in timer_update for one timer
index: skip when TIMER_ENABLE is clear; in cascade mode (bit 2, and i > 0)
advance on the previous timer's overflow; otherwise accumulate cycles and run
the prescaler loop. -/
def timer_update_one (ts : TimerState) (ints : InterruptState) (i : Nat) (cycles : Nat) :
    TimerState × InterruptState :=
  let timer := ts.get i
  if timer.control &&& 0x80 = 0 then (ts, ints)
  else
    let cascade := timer.control &&& 0x04 ≠ 0 ∧ 0 < i
    if cascade then
      if (ts.get (i - 1)).overflow then
        let c := mask16 (timer.counter + 1)
        if c = 0 then
          let timer := { timer with counter := timer.reload, overflow := true }
          let ints :=
            if timer.control &&& 0x40 ≠ 0 then interrupt_raise ints (1 <<< (3 + i)) else ints
          (ts.set i timer, ints)
        else (ts.set i { timer with counter := c, overflow := false }, ints)
      else (ts, ints)
    else
      let prescaler := prescaler_cycles (timer.control &&& 0x03)
      let timer := { timer with cycles := timer.cycles + cycles }
      let (timer, ints) := timer_tick_loop (timer.cycles + 1) timer prescaler i ints
      (ts.set i timer, ints)

/-- timer_update: run all four timers in order, then clear every overflow flag. -/
def timer_update (ts : TimerState) (cycles : Nat) (ints : InterruptState) :
    TimerState × InterruptState :=
  let (ts, ints) := timer_update_one ts ints 0 cycles
  let (ts, ints) := timer_update_one ts ints 1 cycles
  let (ts, ints) := timer_update_one ts ints 2 cycles
  let (ts, ints) := timer_update_one ts ints 3 cycles
  let clear := fun (t : Timer) => { t with overflow := false }
  ({ t0 := clear ts.t0, t1 := clear ts.t1, t2 := clear ts.t2, t3 := clear ts.t3 }, ints)

/-- timer_write_reload: store the u16 reload value (indices 0-3 only). -/
def timer_write_reload (ts : TimerState) (timer_num : Nat) (value : Nat) : TimerState :=
  if 4 ≤ timer_num then ts
  else ts.set timer_num { ts.get timer_num with reload := value }

/-- timer_write_control: store the control word; when TIMER_ENABLE rises,
reload the counter and clear the cycle accumulator and overflow flag. -/
def timer_write_control (ts : TimerState) (timer_num : Nat) (value : Nat) : TimerState :=
  if 4 ≤ timer_num then ts
  else
    let timer := ts.get timer_num
    let was_enabled := timer.control &&& 0x80 ≠ 0
    let now_enabled := value &&& 0x80 ≠ 0
    let timer := { timer with control := value }
    let timer :=
      if ¬was_enabled ∧ now_enabled then
        { timer with counter := timer.reload, cycles := 0, overflow := false }
      else timer
    ts.set timer_num timer

/-- timer_read_counter: the current u16 counter (0 for out-of-range index). -/
def timer_read_counter (ts : TimerState) (timer_num : Nat) : Nat :=
  if 4 ≤ timer_num then 0 else (ts.get timer_num).counter

/-! ## DMA state (dma.h); the transfer engine follows below the bus. -/

/-- DMAChannel from dma.h.  The C field `repeat` is a Lean keyword and is
rendered `repeats`; all other names match the source. -/
structure DMAChannel where
  source : Nat
  dest : Nat
  count : Nat
  control : Nat
  enabled : Bool
  irq_enable : Bool
  repeats : Bool
  word_transfer : Bool
  internal_source : Nat
  internal_dest : Nat
  internal_count : Nat
deriving Repr, DecidableEq

/-- DMAState: `DMAChannel channels[4]` rendered as four named fields. -/
structure DMAState where
  c0 : DMAChannel
  c1 : DMAChannel
  c2 : DMAChannel
  c3 : DMAChannel
deriving Repr, DecidableEq

/-- Array read `state->channels[i]` (callers only use indices 0-3). -/
def DMAState.get (d : DMAState) (i : Nat) : DMAChannel :=
  if i = 0 then d.c0 else if i = 1 then d.c1 else if i = 2 then d.c2 else d.c3

/-- Array write `state->channels[i] = c`. -/
def DMAState.set (d : DMAState) (i : Nat) (c : DMAChannel) : DMAState :=
  if i = 0 then { d with c0 := c }
  else if i = 1 then { d with c1 := c }
  else if i = 2 then { d with c2 := c }
  else { d with c3 := c }

/-! ## Memory bus (src/memory.c, second variant; src/bios.c) -/

/-- The Memory struct from src/unnamed/part_011 plus the BIOS byte array
(the C global `bios_memory` from src/bios.c).  The interrupt, timer and DMA
substates the C reaches through pointers are embedded directly; the RTC
pointer is modelled as NULL (see the header comment). -/
structure Mem where
  rom : Nat → Nat
  rom_size : Nat
  ewram : Nat → Nat
  iwram : Nat → Nat
  vram : Nat → Nat
  oam : Nat → Nat
  palette : Nat → Nat
  io_regs : Nat → Nat
  sram : Nat → Nat
  bios : Nat → Nat
  gpio_data : Nat
  gpio_direction : Nat
  gpio_control : Nat
  flash_state : Nat
  flash_cmd : Nat
  interrupts : InterruptState
  timers : TimerState
  dma : DMAState

/-- bios_read8: `bios_memory[addr]` below 0x4000, else 0. -/
def bios_read8 (m : Mem) (addr : Nat) : Nat :=
  if addr < 0x4000 then m.bios addr else 0

/-- bios_write8: BIOS is read-only except the flags area `[0xDC, 0x100)`. -/
def bios_write8 (m : Mem) (addr value : Nat) : Mem :=
  if 0xDC ≤ addr ∧ addr < 0x100 then { m with bios := upd m.bios addr value } else m

/-- The I/O-register portion of mem_read8, for `offset = addr - 0x04000000`
below 0x400.  Branch order follows the C: VCOUNT, then the live IE/IF/IME/
DISPSTAT mirrors, sound, the dead `0xE00..0xFFFF` branch, keypad, timers,
then the backing io_regs array. -/
def mem_read8_io (m : Mem) (offset : Nat) : Nat :=
  if offset = 0x06 ∨ offset = 0x07 then
    if offset = 0x06 then m.interrupts.vcount &&& 0xFF else (m.interrupts.vcount >>> 8) &&& 0xFF
  else if offset = 0x200 ∨ offset = 0x201 then
    if offset = 0x200 then m.interrupts.ie &&& 0xFF else (m.interrupts.ie >>> 8) &&& 0xFF
  else if offset = 0x202 ∨ offset = 0x203 then
    if offset = 0x202 then m.interrupts.if_flag &&& 0xFF else (m.interrupts.if_flag >>> 8) &&& 0xFF
  else if offset = 0x208 ∨ offset = 0x209 then
    if offset = 0x208 then m.interrupts.ime &&& 0xFF else (m.interrupts.ime >>> 8) &&& 0xFF
  else if offset = 0x04 ∨ offset = 0x05 then
    if offset = 0x04 then m.interrupts.dispstat &&& 0xFF else (m.interrupts.dispstat >>> 8) &&& 0xFF
  else if 0x60 ≤ offset ∧ offset ≤ 0xA7 then m.io_regs offset
  else if 0xE00 ≤ offset ∧ offset ≤ 0xFFFF then 0
  else if 0x130 ≤ offset ∧ offset ≤ 0x133 then m.io_regs offset
  else if 0x100 ≤ offset ∧ offset ≤ 0x10F then
    let timer_id := (offset - 0x100) / 4
    let reg := (offset - 0x100) % 4
    if reg = 0 ∨ reg = 1 then
      let counter := timer_read_counter m.timers timer_id
      if reg = 0 then counter &&& 0xFF else (counter >>> 8) &&& 0xFF
    else m.io_regs offset
  else m.io_regs offset

/-- The undocumented-I/O portion of mem_read8 for `[0x04000400, 0x05000000)`:
WAITCNT reads back 0x4317, POSTFLG reads 1, HALTCNT reads 0, the rest 0. -/
def mem_read8_exthi (_m : Mem) (addr : Nat) : Nat :=
  if addr = 0x04000204 ∨ addr = 0x04000205 then
    if addr = 0x04000204 then 0x17 else 0x43
  else if addr = 0x04000300 then 1
  else if addr = 0x04000301 then 0
  else 0

/-- mem_read8, with the branch chain in exact source order.  The C branch for
`[0x4000, 0x01000000)` recursively reads `addr | 0x04000000`; that address
always lands in `[0x04000000, 0x05000000)`, where the re-entered function can
only take the I/O branch or the undocumented-I/O branch, so the single level
of recursion is unrolled into those two calls.  The ROM branch reduces the
offset modulo rom_size as the C does (rom_size is nonzero whenever a ROM is
loaded; `x % 0 = x` stands in for the C division-by-zero there). -/
def mem_read8 (m : Mem) (addr : Nat) : Nat :=
  if 0x02000000 ≤ addr ∧ addr < 0x03000000 then m.ewram ((addr - 0x02000000) % 0x40000)
  else if 0x03000000 ≤ addr ∧ addr < 0x04000000 then m.iwram ((addr - 0x03000000) % 0x8000)
  else if 0x01000000 ≤ addr ∧ addr < 0x02000000 then m.iwram ((addr - 0x01000000) % 0x8000)
  else if 0x04000000 ≤ addr ∧ addr < 0x04000400 then mem_read8_io m (addr - 0x04000000)
  else if 0x05000000 ≤ addr ∧ addr < 0x05000400 then m.palette (addr - 0x05000000)
  else if 0x06000000 ≤ addr ∧ addr < 0x07000000 then
    let offset := (addr - 0x06000000) % 0x20000
    if offset < 0x18000 then m.vram offset else 0
  else if 0x07000000 ≤ addr ∧ addr < 0x07000400 then m.oam (addr - 0x07000000)
  else if 0x08000000 ≤ addr ∧ addr < 0x0A000000 then
    if addr = 0x080000C4 then m.gpio_data &&& 0xFF
    else if addr = 0x080000C5 then (m.gpio_data >>> 8) &&& 0xFF
    else if addr = 0x080000C6 then m.gpio_direction &&& 0xFF
    else if addr = 0x080000C7 then (m.gpio_direction >>> 8) &&& 0xFF
    else if addr = 0x080000C8 then m.gpio_control &&& 0xFF
    else if addr = 0x080000C9 then (m.gpio_control >>> 8) &&& 0xFF
    else m.rom ((addr - 0x08000000) % m.rom_size)
  else if 0x07000400 ≤ addr ∧ addr < 0x08000000 then 0
  else if 0x0E000000 ≤ addr ∧ addr < 0x0E020000 then
    let offset := addr - 0x0E000000
    if m.flash_state = 1 ∧ m.flash_cmd = 0x90 ∧ offset = 0x0000 then 0xC2
    else if m.flash_state = 1 ∧ m.flash_cmd = 0x90 ∧ offset = 0x0001 then 0x09
    else if offset < 0x20000 then m.sram offset
    else 0
  else if addr < 0x00004000 then bios_read8 m addr
  else if 0x00004000 ≤ addr ∧ addr < 0x01000000 then
    let a := addr ||| 0x04000000
    if a < 0x04000400 then mem_read8_io m (a - 0x04000000) else mem_read8_exthi m a
  else if 0x04000400 ≤ addr ∧ addr < 0x05000000 then mem_read8_exthi m addr
  else if (0x09000000 ≤ addr ∧ addr < 0x0E000000) ∨ 0x10000000 ≤ addr then 0xFF
  else 0

/-- mem_read16: two little-endian byte reads (the bus applies no alignment). -/
def mem_read16 (m : Mem) (addr : Nat) : Nat :=
  let low := mem_read8 m addr
  let high := mem_read8 m (mask32 (addr + 1))
  low ||| (high <<< 8)

/-- mem_read32: two little-endian halfword reads. -/
def mem_read32 (m : Mem) (addr : Nat) : Nat :=
  let low := mem_read16 m addr
  let high := mem_read16 m (mask32 (addr + 2))
  low ||| (high <<< 16)

/-- The source's channel-number test in dma_execute is
`dma - (DMAChannel*)0 == 3`: a pointer difference from the null pointer,
i.e. undefined pointer arithmetic that in practice divides the channel's
machine address by sizeof(DMAChannel) and so is essentially never 3.  The
embedding takes the reading most generous to the specification and treats it
as the intended channel index; even under that reading the max-count
assignment below truncates, because the C variable holding it is a `u16`. -/
def dma_channel_index_test (channel : Nat) : Bool := channel == 3

/-- Source address step from `(ctrl >> 7) & 3`: increment, decrement, fixed;
the missing case 3 leaves the step at its initialiser 0. -/
def dma_src_step (ctrl : Nat) (transfer_size : Int) : Int :=
  let sel := (ctrl >>> 7) &&& 3
  if sel = 0 then transfer_size else if sel = 1 then -transfer_size else 0

/-- Destination address step from `(ctrl >> 5) & 3`: increment, decrement,
fixed, increment/reload. -/
def dma_dst_step (ctrl : Nat) (transfer_size : Int) : Int :=
  let sel := (ctrl >>> 5) &&& 3
  if sel = 0 then transfer_size
  else if sel = 1 then -transfer_size
  else if sel = 2 then 0
  else transfer_size

/-- `u32` address plus a signed step, with 32-bit wrap-around. -/
def addStep (a : Nat) (s : Int) : Nat := toU32 ((a : Int) + s)

mutual

/-- mem_write8 (src/memory.c second variant), branch chain in source order.
The fuel argument bounds the depth of DMA-triggered re-entry (a transfer
whose destination is a DMA control register re-enters this function in C);
every nested call uses one unit of fuel, so any terminating C execution is
reproduced exactly by a large enough fuel. -/
def mem_write8 : Nat → Mem → Nat → Nat → Mem
  | 0, m, _, _ => m
  | fuel + 1, m, addr, value =>
    if addr < 0x01000000 then bios_write8 m (addr % 0x4000) value
    else if 0x02000000 ≤ addr ∧ addr < 0x03000000 then
      { m with ewram := upd m.ewram ((addr - 0x02000000) % 0x40000) value }
    else if 0x03000000 ≤ addr ∧ addr < 0x04000000 then
      { m with iwram := upd m.iwram ((addr - 0x03000000) % 0x8000) value }
    else if 0x01000000 ≤ addr ∧ addr < 0x02000000 then
      { m with iwram := upd m.iwram ((addr - 0x01000000) % 0x8000) value }
    else if 0x04000000 ≤ addr ∧ addr < 0x04000400 then
      let offset := addr - 0x04000000
      if offset = 0x00 ∨ offset = 0x01 then
        let dispcnt := mem_read16 m 0x04000000
        let dispcnt :=
          if offset = 0x00 then (dispcnt &&& 0xFF00) ||| value
          else (dispcnt &&& 0x00FF) ||| (value <<< 8)
        { m with io_regs := upd (upd m.io_regs 0 (dispcnt &&& 0xFF)) 1 ((dispcnt >>> 8) &&& 0xFF) }
      else if offset = 0x04 ∨ offset = 0x05 then
        let dispstat_new := mem_read16 m 0x04000004
        let dispstat_new :=
          if offset = 0x04 then (dispstat_new &&& 0xFF00) ||| value
          else (dispstat_new &&& 0x00FF) ||| (value <<< 8)
        { m with
          interrupts := { m.interrupts with dispstat := dispstat_new },
          io_regs :=
            upd (upd m.io_regs 0x04 (dispstat_new &&& 0xFF)) 0x05 ((dispstat_new >>> 8) &&& 0xFF) }
      else if offset = 0x06 ∨ offset = 0x07 then m
      else if offset = 0x200 ∨ offset = 0x201 then
        let ie := mem_read16 m 0x04000200
        let ie :=
          if offset = 0x200 then (ie &&& 0xFF00) ||| value else (ie &&& 0x00FF) ||| (value <<< 8)
        { m with
          interrupts := { m.interrupts with ie := ie },
          io_regs := upd (upd m.io_regs 0x200 (ie &&& 0xFF)) 0x201 ((ie >>> 8) &&& 0xFF) }
      else if offset = 0x202 ∨ offset = 0x203 then
        let ints :=
          if offset = 0x202 then interrupt_acknowledge m.interrupts value
          else interrupt_acknowledge m.interrupts (value <<< 8)
        { m with
          interrupts := ints,
          io_regs :=
            upd (upd m.io_regs 0x202 (ints.if_flag &&& 0xFF)) 0x203 ((ints.if_flag >>> 8) &&& 0xFF) }
      else if offset = 0x208 ∨ offset = 0x209 then
        let ime := mem_read16 m 0x04000208
        let ime :=
          if offset = 0x208 then (ime &&& 0xFF00) ||| value else (ime &&& 0x00FF) ||| (value <<< 8)
        { m with
          interrupts := { m.interrupts with ime := ime },
          io_regs := upd (upd m.io_regs 0x208 (ime &&& 0xFF)) 0x209 ((ime >>> 8) &&& 0xFF) }
      else if 0x100 ≤ offset ∧ offset ≤ 0x10F then
        let timer_id := (offset - 0x100) / 4
        let reg := (offset - 0x100) % 4
        if reg = 0 ∨ reg = 1 then
          let reload := mem_read16 m (0x04000000 + 0x100 + timer_id * 4)
          let reload :=
            if reg = 0 then (reload &&& 0xFF00) ||| value else (reload &&& 0x00FF) ||| (value <<< 8)
          { m with
            timers := timer_write_reload m.timers timer_id reload,
            io_regs :=
              upd (upd m.io_regs (0x100 + timer_id * 4) (reload &&& 0xFF))
                (0x100 + timer_id * 4 + 1) ((reload >>> 8) &&& 0xFF) }
        else
          let control := mem_read16 m (0x04000000 + 0x100 + timer_id * 4 + 2)
          let control :=
            if reg = 2 then (control &&& 0xFF00) ||| value
            else (control &&& 0x00FF) ||| (value <<< 8)
          { m with
            timers := timer_write_control m.timers timer_id control,
            io_regs :=
              upd (upd m.io_regs (0x100 + timer_id * 4 + 2) (control &&& 0xFF))
                (0x100 + timer_id * 4 + 3) ((control >>> 8) &&& 0xFF) }
      else if 0xB0 ≤ offset ∧ offset ≤ 0xDF then
        let channel := (offset - 0xB0) / 12
        let reg := (offset - 0xB0) % 12
        let m := { m with io_regs := upd m.io_regs offset value }
        if reg ≤ 3 then
          let src := mem_read32 m (0x04000000 + 0xB0 + channel * 12)
          { m with
            dma := m.dma.set channel { m.dma.get channel with source := src &&& 0x0FFFFFFF } }
        else if 4 ≤ reg ∧ reg ≤ 7 then
          let dst := mem_read32 m (0x04000000 + 0xB0 + channel * 12 + 4)
          { m with
            dma := m.dma.set channel { m.dma.get channel with dest := dst &&& 0x0FFFFFFF } }
        else if reg = 8 ∨ reg = 9 then
          let count := mem_read16 m (0x04000000 + 0xB0 + channel * 12 + 8)
          { m with dma := m.dma.set channel { m.dma.get channel with count := count } }
        else
          let control := mem_read16 m (0x04000000 + 0xB0 + channel * 12 + 10)
          dma_write_control fuel m channel control
      else if 0x60 ≤ offset ∧ offset ≤ 0xA7 then { m with io_regs := upd m.io_regs offset value }
      else if 0x130 ≤ offset ∧ offset ≤ 0x133 then { m with io_regs := upd m.io_regs offset value }
      else { m with io_regs := upd m.io_regs offset value }
    else if 0x05000000 ≤ addr ∧ addr < 0x05000400 then
      { m with palette := upd m.palette (addr - 0x05000000) value }
    else if 0x06000000 ≤ addr ∧ addr < 0x07000000 then
      let offset := (addr - 0x06000000) % 0x20000
      if offset < 0x18000 then { m with vram := upd m.vram offset value } else m
    else if 0x07000000 ≤ addr ∧ addr < 0x07000400 then
      { m with oam := upd m.oam (addr - 0x07000000) value }
    else if 0x0E000000 ≤ addr ∧ addr < 0x0E020000 then
      let offset := addr - 0x0E000000
      if offset = 0x5555 ∧ value = 0xAA then { m with flash_state := 1 }
      else if offset = 0x2AAA ∧ value = 0x55 ∧ m.flash_state = 1 then { m with flash_state := 2 }
      else if offset = 0x5555 ∧ m.flash_state = 2 then
        let m := { m with flash_cmd := value }
        if value = 0x90 then { m with flash_state := 1 }
        else if value = 0xF0 then { m with flash_state := 0 }
        else if value = 0xA0 then { m with flash_state := 3 }
        else if value = 0x80 then { m with flash_state := 4 }
        else { m with flash_state := 0 }
      else if m.flash_state = 3 then
        let m := if offset < 0x20000 then { m with sram := upd m.sram offset value } else m
        { m with flash_state := 0 }
      else if offset < 0x20000 then { m with sram := upd m.sram offset value }
      else m
    else if 0x08000000 ≤ addr ∧ addr < 0x0A000000 then
      if addr = 0x080000C4 then { m with gpio_data := (m.gpio_data &&& 0xFF00) ||| value }
      else if addr = 0x080000C5 then
        { m with gpio_data := (m.gpio_data &&& 0x00FF) ||| (value <<< 8) }
      else if addr = 0x080000C6 then
        { m with gpio_direction := (m.gpio_direction &&& 0xFF00) ||| value }
      else if addr = 0x080000C7 then
        { m with gpio_direction := (m.gpio_direction &&& 0x00FF) ||| (value <<< 8) }
      else if addr = 0x080000C8 then
        { m with gpio_control := (m.gpio_control &&& 0xFF00) ||| value }
      else if addr = 0x080000C9 then
        { m with gpio_control := (m.gpio_control &&& 0x00FF) ||| (value <<< 8) }
      else m
    else if 0x04000400 ≤ addr ∧ addr < 0x05000000 then m
    else if (0x09000000 ≤ addr ∧ addr < 0x0E000000) ∨ 0x10000000 ≤ addr then m
    else m
  termination_by structural fuel _ _ _ => fuel

/-- mem_write16: two little-endian byte writes. -/
def mem_write16 : Nat → Mem → Nat → Nat → Mem
  | 0, m, _, _ => m
  | fuel + 1, m, addr, value =>
    mem_write8 fuel (mem_write8 fuel m addr (value &&& 0xFF)) (mask32 (addr + 1))
      ((value >>> 8) &&& 0xFF)
  termination_by structural fuel _ _ _ => fuel

/-- mem_write32: two little-endian halfword writes. -/
def mem_write32 : Nat → Mem → Nat → Nat → Mem
  | 0, m, _, _ => m
  | fuel + 1, m, addr, value =>
    mem_write16 fuel (mem_write16 fuel m addr (value &&& 0xFFFF)) (mask32 (addr + 2))
      ((value >>> 16) &&& 0xFFFF)
  termination_by structural fuel _ _ _ => fuel

/-- The transfer loop of dma_execute: `count` reads and writes of the chosen
width, stepping the source and destination addresses after each unit.
Returns the memory together with the final src and dst values. -/
def dma_transfer_loop : Nat → Nat → Mem → Nat → Nat → Bool → Int → Int → Mem × Nat × Nat
  | 0, _, m, src, dst, _, _, _ => (m, src, dst)
  | _ + 1, 0, m, src, dst, _, _, _ => (m, src, dst)
  | fuel + 1, count + 1, m, src, dst, word, src_step, dst_step =>
    let m :=
      if word then mem_write32 fuel m dst (mem_read32 m src)
      else mem_write16 fuel m dst (mem_read16 m src)
    dma_transfer_loop fuel count m (addStep src src_step) (addStep dst dst_step) word src_step
      dst_step
  termination_by structural fuel _ _ _ _ _ _ _ => fuel

/-- dma_execute (src/stubs.c): run one enabled channel.  Count 0 is replaced
by the intended maximum, stored through a `u16` exactly as in the C
(`u16 count = ...; count = ch3 ? 0x10000 : 0x4000` - the 0x10000 case
truncates to 0).  After the loop the channel is re-read, its internal
source/dest updated, and repeat/disable handling applied. -/
def dma_execute : Nat → Mem → Nat → Mem
  | 0, m, _ => m
  | fuel + 1, m, channel =>
    let dmac := m.dma.get channel
    if ¬dmac.enabled then m
    else
      let src := dmac.internal_source
      let dst := dmac.internal_dest
      let count := dmac.internal_count
      let count :=
        if count = 0 then mask16 (if dma_channel_index_test channel then 0x10000 else 0x4000)
        else count
      let transfer_size : Int := if dmac.word_transfer then 4 else 2
      let ctrl := dmac.control
      let src_step := dma_src_step ctrl transfer_size
      let dst_step := dma_dst_step ctrl transfer_size
      let (m, src, dst) :=
        dma_transfer_loop fuel count m src dst dmac.word_transfer src_step dst_step
      let dmac := m.dma.get channel
      let dmac := { dmac with internal_source := src, internal_dest := dst }
      let dmac :=
        if ¬dmac.repeats then { dmac with enabled := false, control := dmac.control &&& 0x7FFF }
        else
          let dmac :=
            if (ctrl >>> 5) &&& 3 = 3 then { dmac with internal_dest := dmac.dest } else dmac
          { dmac with internal_count := dmac.count }
      { m with dma := m.dma.set channel dmac }
  termination_by structural fuel _ _ => fuel

/-- dma_write_control (src/stubs.c): store the control bits; when the enable
bit rises, latch the internal registers and run the transfer immediately for
start mode 0. -/
def dma_write_control : Nat → Mem → Nat → Nat → Mem
  | 0, m, _, _ => m
  | fuel + 1, m, channel, value =>
    if 4 ≤ channel then m
    else
      let dmac := m.dma.get channel
      let was_enabled := dmac.enabled
      let dmac :=
        { dmac with
          control := value,
          enabled := value &&& 0x8000 ≠ 0,
          irq_enable := value &&& 0x4000 ≠ 0,
          repeats := value &&& 0x0200 ≠ 0,
          word_transfer := value &&& 0x0400 ≠ 0 }
      let m := { m with dma := m.dma.set channel dmac }
      if dmac.enabled ∧ ¬was_enabled then
        let dmac :=
          { dmac with
            internal_source := dmac.source,
            internal_dest := dmac.dest,
            internal_count := dmac.count }
        let m := { m with dma := m.dma.set channel dmac }
        let start_mode := (value &&& 0x3000) >>> 12
        if start_mode = 0 then dma_execute fuel m channel else m
      else m
  termination_by structural fuel _ _ _ => fuel

end

/-- dma_trigger (src/stubs.c): run every enabled channel whose start mode
matches the trigger type, in channel order, re-reading the channel state
before each one as the C loop does. -/
def dma_trigger (fuel : Nat) (m : Mem) (trigger_type : Nat) : Mem :=
  let step := fun (m : Mem) (i : Nat) =>
    let dmac := m.dma.get i
    if ¬dmac.enabled then m
    else if (dmac.control &&& 0x3000) >>> 12 = trigger_type then dma_execute fuel m i
    else m
  step (step (step (step m 0) 1) 2) 3

/-! ## CPU state and the barrel shifter (src/cpu_core.c) -/

/-- CPSR flag bits from cpu_core.h. -/
def FLAG_N : Nat := 0x80000000

def FLAG_Z : Nat := 0x40000000

def FLAG_C : Nat := 0x20000000

def FLAG_V : Nat := 0x10000000

def FLAG_T : Nat := 0x20

def FLAG_I : Nat := 0x80

/-- The ARM7TDMI struct from cpu_core.h: sixteen u32 registers (modelled as a
function, indexed 0-15), CPSR, SPSR, the Thumb selector, the cycle counter
and the halted flag. -/
structure Cpu where
  r : Nat → Nat
  cpsr : Nat
  spsr : Nat
  thumb_mode : Bool
  cycles : Nat
  halted : Bool

/-- Register file write `cpu->r[i] = v`. -/
def setR (cpu : Cpu) (i v : Nat) : Cpu := { cpu with r := upd cpu.r i v }

/-- The carry flag as a Bool, i.e. `(cpu->cpsr & FLAG_C) != 0`. -/
def cpsr_carry (cpu : Cpu) : Bool := decide (cpu.cpsr &&& FLAG_C ≠ 0)

/-- check_condition: the 16 ARM condition codes against N/Z/C/V. -/
def check_condition (cpu : Cpu) (cond : Nat) : Bool :=
  let n := decide (cpu.cpsr &&& FLAG_N ≠ 0)
  let z := decide (cpu.cpsr &&& FLAG_Z ≠ 0)
  let c := decide (cpu.cpsr &&& FLAG_C ≠ 0)
  let v := decide (cpu.cpsr &&& FLAG_V ≠ 0)
  if cond = 0x0 then z
  else if cond = 0x1 then !z
  else if cond = 0x2 then c
  else if cond = 0x3 then !c
  else if cond = 0x4 then n
  else if cond = 0x5 then !n
  else if cond = 0x6 then v
  else if cond = 0x7 then !v
  else if cond = 0x8 then c && !z
  else if cond = 0x9 then !c || z
  else if cond = 0xA then n == v
  else if cond = 0xB then n != v
  else if cond = 0xC then !z && (n == v)
  else if cond = 0xD then z || (n != v)
  else if cond = 0xE then true
  else false

/-- update_flags_logical: Z from result == 0, N from bit 31; C and V untouched. -/
def update_flags_logical (cpu : Cpu) (result : Nat) : Cpu :=
  let cpu :=
    if result = 0 then { cpu with cpsr := cpu.cpsr ||| FLAG_Z }
    else { cpu with cpsr := cpu.cpsr &&& 0xBFFFFFFF }
  if result &&& 0x80000000 ≠ 0 then { cpu with cpsr := cpu.cpsr ||| FLAG_N }
  else { cpu with cpsr := cpu.cpsr &&& 0x7FFFFFFF }

/-- update_flags_add: logical flags, then C from unsigned wrap (`result < a`
on the wrapped u32 result) and V from signed overflow. -/
def update_flags_add (cpu : Cpu) (a b result : Nat) : Cpu :=
  let cpu := update_flags_logical cpu result
  let cpu :=
    if result < a then { cpu with cpsr := cpu.cpsr ||| FLAG_C }
    else { cpu with cpsr := cpu.cpsr &&& 0xDFFFFFFF }
  let overflow :=
    (a &&& 0x80000000) = (b &&& 0x80000000) ∧ (a &&& 0x80000000) ≠ (result &&& 0x80000000)
  if overflow then { cpu with cpsr := cpu.cpsr ||| FLAG_V }
  else { cpu with cpsr := cpu.cpsr &&& 0xEFFFFFFF }

/-- update_flags_sub: logical flags, then C = NOT borrow (`a >= b`) and V
from signed overflow. -/
def update_flags_sub (cpu : Cpu) (a b result : Nat) : Cpu :=
  let cpu := update_flags_logical cpu result
  let cpu :=
    if b ≤ a then { cpu with cpsr := cpu.cpsr ||| FLAG_C }
    else { cpu with cpsr := cpu.cpsr &&& 0xDFFFFFFF }
  let overflow :=
    (a &&& 0x80000000) ≠ (b &&& 0x80000000) ∧ (a &&& 0x80000000) ≠ (result &&& 0x80000000)
  if overflow then { cpu with cpsr := cpu.cpsr ||| FLAG_V }
  else { cpu with cpsr := cpu.cpsr &&& 0xEFFFFFFF }

/-- Tail of barrel_shift: `if (set_carry) { if (carry) cpsr |= FLAG_C; else
cpsr &= ~FLAG_C; }` - this helper is the inner conditional. -/
def set_carry_flag (cpu : Cpu) (carry : Bool) : Cpu :=
  if carry then { cpu with cpsr := cpu.cpsr ||| FLAG_C }
  else { cpu with cpsr := cpu.cpsr &&& 0xDFFFFFFF }

/-- barrel_shift (src/cpu_core.c lines 152-222), returning the shifter result
together with the updated CPU.  The local `carry` starts as the CPSR C flag
and is only recomputed under `set_carry`, exactly as in the C; in the RRX
branch (`shift_type == 3`, amount 0) the C assigns `result` inside the
`if (set_carry)` block, so without set_carry the operand passes through
unrotated. -/
def barrel_shift (cpu : Cpu) (value shift_type shift_amount : Nat) (set_carry : Bool) :
    Nat × Cpu :=
  let carry0 := cpsr_carry cpu
  let p : Nat × Bool :=
    if shift_type = 0 then
      if shift_amount = 0 then (value, carry0)
      else if shift_amount < 32 then
        (mask32 (value <<< shift_amount),
         if set_carry then decide ((value >>> (32 - shift_amount)) &&& 1 ≠ 0) else carry0)
      else if shift_amount = 32 then
        (0, if set_carry then decide (value &&& 1 ≠ 0) else carry0)
      else (0, if set_carry then false else carry0)
    else if shift_type = 1 then
      if shift_amount = 0 ∨ shift_amount = 32 then
        (0, if set_carry then decide ((value >>> 31) &&& 1 ≠ 0) else carry0)
      else if shift_amount < 32 then
        (value >>> shift_amount,
         if set_carry then decide ((value >>> (shift_amount - 1)) &&& 1 ≠ 0) else carry0)
      else (0, if set_carry then false else carry0)
    else if shift_type = 2 then
      if shift_amount = 0 ∨ 32 ≤ shift_amount then
        if value &&& 0x80000000 ≠ 0 then (0xFFFFFFFF, if set_carry then true else carry0)
        else (0, if set_carry then false else carry0)
      else
        (asr32 value shift_amount,
         if set_carry then decide ((asr32 value (shift_amount - 1)) &&& 1 ≠ 0) else carry0)
    else if shift_type = 3 then
      if shift_amount = 0 then
        if set_carry then
          (mask32 ((value >>> 1) ||| (if carry0 then 0x80000000 else 0)),
           decide (value &&& 1 ≠ 0))
        else (value, carry0)
      else
        let sa := shift_amount &&& 31
        if sa = 0 then (value, carry0)
        else
          (mask32 ((value >>> sa) ||| (value <<< (32 - sa))),
           if set_carry then decide ((value >>> (sa - 1)) &&& 1 ≠ 0) else carry0)
    else (value, carry0)
  (p.1, if set_carry then set_carry_flag cpu p.2 else cpu)

/-- Specification-side shifter, written from the words of spec.md §4.2.2:
LSL by 0 preserves the carry; LSL by 32 emits bit 0 with result 0; LSL by
more than 32 emits result 0 carry 0; LSR and ASR by 0 behave as shifts by
32; ROR by 0 means RRX (rotate right through the carry, carry out bit 0);
in-range shifts produce the ordinary shift or rotate with carry equal to the
last bit shifted out. -/
def shifter_spec (carry_in : Bool) (v ty s : Nat) : Nat × Bool :=
  if ty = 0 then
    if s = 0 then (v, carry_in)
    else if s < 32 then (mask32 (v <<< s), v.testBit (32 - s))
    else if s = 32 then (0, v.testBit 0)
    else (0, false)
  else if ty = 1 then
    if s = 0 ∨ s = 32 then (0, v.testBit 31)
    else if s < 32 then (v >>> s, v.testBit (s - 1))
    else (0, false)
  else if ty = 2 then
    if s = 0 ∨ 32 ≤ s then ((if v.testBit 31 then 0xFFFFFFFF else 0), v.testBit 31)
    else (asr32 v s, v.testBit (s - 1))
  else
    if s = 0 then
      (mask32 ((v >>> 1) ||| (if carry_in then 0x80000000 else 0)), v.testBit 0)
    else if s % 32 = 0 then (v, v.testBit 31)
    else (mask32 ((v >>> (s % 32)) ||| (v <<< (32 - s % 32))), v.testBit (s % 32 - 1))

/-! ## Bit-level bridging lemmas -/

theorem mask32_eq_of_lt {x : Nat} (h : x < 4294967296) : mask32 x = x := Nat.mod_eq_of_lt h

theorem and1_testBit (v k : Nat) : (decide ((v >>> k) &&& 1 ≠ 0)) = v.testBit k := by
  simp [Nat.testBit, Nat.and_comm]

theorem and_bit31 (v : Nat) : (decide (v &&& 2147483648 ≠ 0)) = v.testBit 31 := by
  have h := Nat.and_two_pow v 31
  norm_num at h
  rw [h]
  cases hv : v.testBit 31 <;> simp

theorem and31_mod (s : Nat) : s &&& 31 = s % 32 := Nat.and_pow_two_sub_one_eq_mod s 5

theorem or_and_one (a b : Nat) : (a ||| b) &&& 1 = (a &&& 1) ||| (b &&& 1) := by
  rw [Nat.and_comm _ 1, Nat.and_or_distrib_left, Nat.and_comm 1 a, Nat.and_comm 1 b]

theorem mask32_and_one (x : Nat) : mask32 x &&& 1 = x &&& 1 := by
  simp only [mask32, Nat.and_one_is_mod]
  omega

theorem asr32_and_one (v k : Nat) (hk : k < 32) : asr32 v k &&& 1 = (v >>> k) &&& 1 := by
  unfold asr32
  split
  · rfl
  · rw [mask32_and_one, or_and_one]
    have h2 : (4294967295 <<< (32 - k)) &&& 1 = 0 := by
      rw [Nat.and_one_is_mod, Nat.shiftLeft_eq]
      have h3 : (32 - k) = (32 - k - 1) + 1 := by omega
      rw [h3, pow_succ]
      omega
    rw [h2, Nat.or_zero]

theorem cpsr_or_c (x : Nat) : (x ||| 536870912) &&& 536870912 = 536870912 := by
  apply Nat.eq_of_testBit_eq
  intro i
  simp [Nat.testBit_and, Nat.testBit_or]
  tauto

theorem cpsr_clear_c (x : Nat) : (x &&& 3758096383) &&& 536870912 = 0 := by
  rw [Nat.and_assoc, show (3758096383 &&& 536870912 : Nat) = 0 from by decide, Nat.and_zero]

theorem cpsr_carry_set (cpu : Cpu) (b : Bool) : cpsr_carry (set_carry_flag cpu b) = b := by
  cases b <;>
    simp [set_carry_flag, cpsr_carry, FLAG_C, cpsr_or_c, cpsr_clear_c]

theorem and_one_testBit0 (v : Nat) : (decide (v &&& 1 ≠ 0)) = v.testBit 0 := by
  have h := and1_testBit v 0
  rwa [Nat.shiftRight_zero] at h

/-- A concrete CPU state with all registers, CPSR (so also the carry flag)
and SPSR zero. -/
def cpu0 : Cpu :=
  { r := fun _ => 0, cpsr := 0, spsr := 0, thumb_mode := false, cycles := 0, halted := false }

/-- C4 counterexample: claim C4 states the shifter is bit-exact "regardless
of whether the instruction updates flags", with ROR by 0 meaning RRX.  With
set_carry = false the code's RRX branch never assigns the rotated result
(the assignment sits inside `if (set_carry)` in src/cpu_core.c lines
198-203), so shifting value 2 with ROR #0 and carry clear returns 2 where
RRX returns 1. -/
theorem barrel_shift_rrx_counterexample :
    (barrel_shift cpu0 2 3 0 false).1 = 2 ∧ (shifter_spec (cpsr_carry cpu0) 2 3 0).1 = 1 ∧
      (barrel_shift cpu0 2 3 0 false).1 ≠ (shifter_spec (cpsr_carry cpu0) 2 3 0).1 := by
  decide

/-- C4 amended: the barrel shifter result and outgoing carry are bit-exact
against the §4.2.2 table - LSL#0 preserves the carry, LSL#32 emits bit 0
with result 0, LSL by more than 32 emits 0 with carry 0, LSR/ASR#0 behave
as shifts by 32, and ROR#0 means RRX - except that the RRX rotation is
applied only when the instruction updates flags (set_carry); without
set_carry the operand passes through unrotated.  The carry conclusion is
stated for flag-setting shifts, away from ROR by 32 or 33, which the
specification's table leaves undefined. -/
theorem barrel_shift_matches_spec (cpu : Cpu) (v ty s : Nat) (sc : Bool)
    (_hv : v < 4294967296) (hty : ty ≤ 3) (hs : s ≤ 33) :
    (barrel_shift cpu v ty s sc).1 =
        (if ty = 3 ∧ s = 0 ∧ sc = false then v
         else (shifter_spec (cpsr_carry cpu) v ty s).1) ∧
      (sc = true → ¬(ty = 3 ∧ 32 ≤ s) →
        cpsr_carry (barrel_shift cpu v ty s sc).2 =
          (shifter_spec (cpsr_carry cpu) v ty s).2) := by
  have h31iff : (v &&& 2147483648 ≠ 0) ↔ v.testBit 31 = true := by
    rw [← and_bit31 v]
    simp
  constructor
  · simp only [barrel_shift, shifter_spec, and31_mod]
    split_ifs <;>
      first
        | rfl
        | omega
        | simp_all
  · intro hsc hnot
    subst hsc
    simp only [barrel_shift, shifter_spec, and31_mod, if_true]
    rw [cpsr_carry_set]
    split_ifs <;>
      first
        | rfl
        | omega
        | (exact and1_testBit v _)
        | (exact and_one_testBit0 v)
        | (rw [show asr32 v (s - 1) &&& 1 = (v >>> (s - 1)) &&& 1 from
            asr32_and_one v (s - 1) (by omega)]
           exact and1_testBit v _)
        | simp_all

/-- Witness for barrel_shift_matches_spec at v = 0x80000001, LSR #0,
flag-setting, on the zero CPU state. -/
theorem barrel_shift_matches_spec_witness :
    (2147483649 : Nat) < 4294967296 ∧ (1 : Nat) ≤ 3 ∧ (0 : Nat) ≤ 33 ∧
      ((barrel_shift cpu0 2147483649 1 0 true).1 =
          (if (1 : Nat) = 3 ∧ (0 : Nat) = 0 ∧ true = false then 2147483649
           else (shifter_spec (cpsr_carry cpu0) 2147483649 1 0).1) ∧
        (true = true → ¬((1 : Nat) = 3 ∧ 32 ≤ (0 : Nat)) →
          cpsr_carry (barrel_shift cpu0 2147483649 1 0 true).2 =
            (shifter_spec (cpsr_carry cpu0) 2147483649 1 0).2)) :=
  ⟨by decide, by decide, by decide,
    barrel_shift_matches_spec cpu0 2147483649 1 0 true (by decide) (by decide) (by decide)⟩

/-! ## Memory-bus claims -/

/-- An all-zero timer. -/
def timer_zero : Timer := { reload := 0, counter := 0, control := 0, cycles := 0, overflow := false }

/-- dma_init zeroes the whole DMAState; one zeroed channel. -/
def dmac_zero : DMAChannel :=
  { source := 0, dest := 0, count := 0, control := 0, enabled := false, irq_enable := false,
    repeats := false, word_transfer := false, internal_source := 0, internal_dest := 0,
    internal_count := 0 }

/-- interrupt_init: everything zero. -/
def ints_zero : InterruptState :=
  { ie := 0, if_flag := 0, ime := 0, dispstat := 0, vcount := 0, last_scanline := 0 }

/-- A memory with all byte arrays zero, a 16 MiB zero ROM, zeroed subsystem
states, and GPIO control 1 as mem_init leaves it. -/
def mem0 : Mem :=
  { rom := fun _ => 0, rom_size := 0x1000000, ewram := fun _ => 0, iwram := fun _ => 0,
    vram := fun _ => 0, oam := fun _ => 0, palette := fun _ => 0, io_regs := fun _ => 0,
    sram := fun _ => 0xFF, bios := fun _ => 0, gpio_data := 0, gpio_direction := 0,
    gpio_control := 1, flash_state := 0, flash_cmd := 0,
    interrupts := ints_zero,
    timers := { t0 := timer_zero, t1 := timer_zero, t2 := timer_zero, t3 := timer_zero },
    dma := { c0 := dmac_zero, c1 := dmac_zero, c2 := dmac_zero, c3 := dmac_zero } }

theorem mem_read8_ewram (m : Mem) (addr : Nat) (h : 0x02000000 ≤ addr ∧ addr < 0x03000000) :
    mem_read8 m addr = m.ewram ((addr - 0x02000000) % 0x40000) := by
  unfold mem_read8
  rw [if_pos h]

theorem mem_read8_iwram (m : Mem) (addr : Nat) (h : 0x03000000 ≤ addr ∧ addr < 0x04000000) :
    mem_read8 m addr = m.iwram ((addr - 0x03000000) % 0x8000) := by
  unfold mem_read8
  rw [if_neg (by omega), if_pos h]

/-- C8: EWRAM is mirrored every 256 KiB across `[0x02000000, 0x03000000)` and
IWRAM every 32 KiB across `[0x03000000, 0x04000000)`: an 8-bit read of any
mirror returns the byte of the base image. -/
theorem mem_mirroring (m : Mem) (a k : Nat) :
    (0x02000000 ≤ a → a < 0x02040000 → a + 0x40000 * k < 0x03000000 →
      mem_read8 m (a + 0x40000 * k) = mem_read8 m a) ∧
    (0x03000000 ≤ a → a < 0x03008000 → a + 0x8000 * k < 0x04000000 →
      mem_read8 m (a + 0x8000 * k) = mem_read8 m a) := by
  constructor
  · intro h1 h2 h3
    have e1 : mem_read8 m (a + 0x40000 * k) =
        m.ewram ((a + 0x40000 * k - 0x02000000) % 0x40000) :=
      mem_read8_ewram m (a + 0x40000 * k) (by omega)
    have e2 : mem_read8 m a = m.ewram ((a - 0x02000000) % 0x40000) :=
      mem_read8_ewram m a (by omega)
    have e3 : (a + 0x40000 * k - 0x02000000) % 0x40000 = (a - 0x02000000) % 0x40000 := by omega
    rw [e1, e2, e3]
  · intro h1 h2 h3
    have e1 : mem_read8 m (a + 0x8000 * k) =
        m.iwram ((a + 0x8000 * k - 0x03000000) % 0x8000) :=
      mem_read8_iwram m (a + 0x8000 * k) (by omega)
    have e2 : mem_read8 m a = m.iwram ((a - 0x03000000) % 0x8000) :=
      mem_read8_iwram m a (by omega)
    have e3 : (a + 0x8000 * k - 0x03000000) % 0x8000 = (a - 0x03000000) % 0x8000 := by omega
    rw [e1, e2, e3]

/-- Witness for mem_mirroring: EWRAM address 0x02000010 against its third
mirror and IWRAM address 0x03000010 against its third mirror. -/
theorem mem_mirroring_witness :
    ((0x02000000 : Nat) ≤ 0x02000010 ∧ (0x02000010 : Nat) < 0x02040000 ∧
        (0x02000010 : Nat) + 0x40000 * 3 < 0x03000000) ∧
      mem_read8 mem0 (0x02000010 + 0x40000 * 3) = mem_read8 mem0 0x02000010 ∧
      mem_read8 mem0 (0x03000010 + 0x8000 * 3) = mem_read8 mem0 0x03000010 :=
  ⟨by decide,
    (mem_mirroring mem0 0x02000010 3).1 (by decide) (by decide) (by decide),
    (mem_mirroring mem0 0x03000010 3).2 (by decide) (by decide) (by decide)⟩

/-- C6 counterexample: the spec's memory table says 8-bit palette writes
replicate the byte into both bytes of the containing halfword.  The code
(src/memory.c lines 910-920) stores the single byte only: writing 0xAB to
0x05000000 leaves 0x05000001 at 0 and the halfword reads 0x00AB, not
0xABAB. -/
theorem palette_write8_counterexample :
    mem_read8 (mem_write8 8 mem0 0x05000000 0xAB) 0x05000000 = 0xAB ∧
      mem_read8 (mem_write8 8 mem0 0x05000000 0xAB) 0x05000001 = 0 ∧
      mem_read16 (mem_write8 8 mem0 0x05000000 0xAB) 0x05000000 = 0x00AB ∧
      mem_read16 (mem_write8 8 mem0 0x05000000 0xAB) 0x05000000 ≠ 0xABAB := by
  decide

/-- C6 amended: an 8-bit write to palette RAM stores the byte at the addressed
offset only; every other palette byte is unchanged, so no replication into
the other byte of the halfword takes place. -/
theorem palette_write8_byte (m : Mem) (addr v i fuel : Nat)
    (h : 0x05000000 ≤ addr ∧ addr < 0x05000400) :
    (mem_write8 (fuel + 1) m addr v).palette i =
      (if i = addr - 0x05000000 then v else m.palette i) := by
  unfold mem_write8
  rw [if_neg (by omega), if_neg (by omega), if_neg (by omega), if_neg (by omega),
    if_neg (by omega), if_pos h]
  rfl

/-- Witness for palette_write8_byte: write 0x12 to 0x05000004 and look at
offsets 4 and 5. -/
theorem palette_write8_byte_witness :
    ((0x05000000 : Nat) ≤ 0x05000004 ∧ (0x05000004 : Nat) < 0x05000400) ∧
      (mem_write8 8 mem0 0x05000004 0x12).palette 4 =
        (if (4 : Nat) = 0x05000004 - 0x05000000 then 0x12 else mem0.palette 4) ∧
      (mem_write8 8 mem0 0x05000004 0x12).palette 5 =
        (if (5 : Nat) = 0x05000004 - 0x05000000 then 0x12 else mem0.palette 5) :=
  ⟨by decide, palette_write8_byte mem0 0x05000004 0x12 4 7 (by decide),
    palette_write8_byte mem0 0x05000004 0x12 5 7 (by decide)⟩

/-- C9 counterexample: the spec says CPU writes to KEYINPUT (0x04000130 /
0x04000131) are ignored.  The bus write handler (src/memory.c lines 887-897)
stores the byte - its comment reads "Allow for input system updates", and
the input subsystem (src/unnamed/part_019) indeed delivers KEYINPUT through
this very path with mem_write16.  An 8-bit bus write of 0x55 to KEYINPUT is
therefore visible to the next read. -/
theorem keyinput_write8_counterexample :
    mem_read8 mem0 0x04000130 = 0 ∧
      mem_read8 (mem_write8 8 mem0 0x04000130 0x55) 0x04000130 = 0x55 ∧
      mem_read8 (mem_write8 8 mem0 0x04000131 0x55) 0x04000131 = 0x55 := by
  decide

/-- C9 amended: an 8-bit bus write to either KEYINPUT byte is stored in
io_regs and returned by the next 8-bit read; the bus does not distinguish
CPU writes from the input subsystem, which updates KEYINPUT through the same
path. -/
theorem keyinput_write8_stores (m : Mem) (v fuel off : Nat)
    (hoff : off = 0x130 ∨ off = 0x131) :
    mem_read8 (mem_write8 (fuel + 1) m (0x04000000 + off) v) (0x04000000 + off) = v := by
  rcases hoff with h | h <;> subst h <;>
    simp [mem_write8, mem_read8, mem_read8_io, upd]

/-- Witness for keyinput_write8_stores at value 0x7F, offset 0x130. -/
theorem keyinput_write8_stores_witness :
    ((0x130 : Nat) = 0x130 ∨ (0x130 : Nat) = 0x131) ∧
      mem_read8 (mem_write8 8 mem0 (0x04000000 + 0x130) 0x7F) (0x04000000 + 0x130) = 0x7F :=
  ⟨Or.inl rfl, keyinput_write8_stores mem0 0x7F 7 0x130 (Or.inl rfl)⟩

/-- Memory state for the C5 counterexample: EWRAM bytes 0, 1, 2 hold 1, 2, 3. -/
def memC5 : Mem := { mem0 with ewram := upd (upd (upd mem0.ewram 0 1) 1 2) 2 3 }

/-- C5 counterexample: the claim says the 16-bit bus read itself accesses
`addr & ~1`.  mem_read16 (src/memory.c lines 619-624) reads the two bytes at
addr and addr+1 with no masking: at the odd address 0x02000001 it returns
0x0302 (bytes 1 and 2), not the aligned halfword 0x0201. -/
theorem bus_read16_counterexample :
    mem_read16 memC5 0x02000001 = 0x0302 ∧
      mem_read16 memC5 (0x02000001 &&& 0xFFFFFFFE) = 0x0201 ∧
      mem_read16 memC5 0x02000001 ≠ mem_read16 memC5 (0x02000001 &&& 0xFFFFFFFE) := by
  decide

/-! ## Interrupt and DMA claims -/

/-- Bit 1 of if_flag is untouched by every path of interrupt_update_vcount:
the only raises are INT_VCOUNT (bit 2) and INT_VBLANK (bit 0), and
acknowledgement never happens here. -/
theorem interrupt_update_vcount_hblank_bit (s : InterruptState) (scanline : Nat) :
    (interrupt_update_vcount s scanline).if_flag &&& 2 = s.if_flag &&& 2 := by
  have hdist : ∀ x c : Nat, c &&& 2 = 0 → (x ||| c) &&& 2 = x &&& 2 := by
    intro x c h
    rw [Nat.and_comm _ 2, Nat.and_or_distrib_left, Nat.and_comm 2 x, Nat.and_comm 2 c, h,
      Nat.or_zero]
  simp only [interrupt_update_vcount, interrupt_raise, INT_VCOUNT, INT_VBLANK]
  split_ifs <;>
    first
      | omega
      | rfl
      | (show (s.if_flag ||| 4) &&& 2 = s.if_flag &&& 2
         rw [hdist _ _ (by decide)])
      | (show (s.if_flag ||| 1) &&& 2 = s.if_flag &&& 2
         rw [hdist _ _ (by decide)])
      | (show ((s.if_flag ||| 4) ||| 1) &&& 2 = s.if_flag &&& 2
         rw [hdist _ _ (by decide), hdist _ _ (by decide)])

/-- Memory state for the C7 failing input: halfword 0x1234 at 0x02000000,
DMA channel 3 programmed with source 0x02000000, dest 0x02000100 and word
count 0, not yet enabled. -/
def memD : Mem :=
  { mem0 with
    ewram := upd (upd mem0.ewram 0 0x34) 1 0x12,
    dma :=
      { mem0.dma with
        c3 := { dmac_zero with source := 0x02000000, dest := 0x02000100, count := 0 } } }

/-- C7 failing input evaluated: enabling channel 3 (control 0x8000: enable,
immediate timing, 16-bit) with word count 0 performs no transfer at all.
The C stores the intended maximum into a `u16` local
(`count = 0x10000` truncates to 0 - and the channel test itself is the
undefined pointer expression `dma - (DMAChannel*)0 == 3`), so the
destination stays 0 instead of receiving the 0x10000-unit copy the claim
describes; the channel is then disabled as if the transfer had completed. -/
theorem dma_channel3_count0_no_transfer :
    mem_read16 memD 0x02000000 = 0x1234 ∧
      mem_read16 (dma_write_control 8 memD 3 0x8000) 0x02000100 = 0 ∧
      mem_read16 (dma_write_control 8 memD 3 0x8000) 0x02000100 ≠ 0x1234 ∧
      (dma_write_control 8 memD 3 0x8000).dma.c3.enabled = false := by
  decide

/-! ## ARM instruction execution (src/cpu_core.c execute_arm), split into one
definition per commented decode block of the C function. -/

/-- Default fuel for CPU-originated bus writes.  A single store can trigger
at most one immediate DMA whose transfer loop runs at most 0x10000 units,
and each nesting level consumes one unit of fuel, so 2^26 covers every
execution the C can complete. -/
def memFuel : Nat := 67108864

/-- Sign-extend a byte loaded by LDRSB (`(s32)(s8)b` stored into a u32). -/
def sign_extend8 (b : Nat) : Nat := if b &&& 0x80 ≠ 0 then b ||| 0xFFFFFF00 else b

/-- Sign-extend a halfword loaded by LDRSH. -/
def sign_extend16 (h : Nat) : Nat := if h &&& 0x8000 ≠ 0 then h ||| 0xFFFF0000 else h

/-- Branch and exchange (the 0xE12FFF1x block): validate the target region,
then switch the Thumb selector from bit 0 and set R15 to target plus the
pipeline offset. -/
def arm_bx (cpu : Cpu) (m : Mem) (opcode : Nat) : Nat × Cpu × Mem :=
  let rn := opcode &&& 0xF
  let addr := if rn = 15 then sub32 (cpu.r 15) 4 else cpu.r rn
  if 0x10000000 ≤ addr ∨ (0x04000000 ≤ addr ∧ addr < 0x08000000) then (3, cpu, m)
  else
    let thumb := decide (addr &&& 1 ≠ 0)
    let target := addr &&& 0xFFFFFFFE
    let cpu := { cpu with thumb_mode := thumb }
    (3, setR cpu 15 (add32 target (if thumb then 4 else 8)), m)

/-- MSR: apply the field mask, clamp an invalid mode back to the current
one, and resynchronise the Thumb selector with CPSR bit 5.  The SPSR form
is ignored ("SPSR not implemented").  The C builds the rotated immediate
without a rotate-0 special case; `imm << 32` is masked here, which agrees
with the C result on every compiler because the low byte survives the OR
either way. -/
def arm_msr (cpu : Cpu) (m : Mem) (opcode : Nat) : Nat × Cpu × Mem :=
  let immediate := decide (opcode &&& 0x2000000 ≠ 0)
  let spsr := decide (opcode &&& 0x400000 ≠ 0)
  let field_mask :=
    (if opcode &&& 0x10000 ≠ 0 then 0x000000FF else 0) |||
    (if opcode &&& 0x20000 ≠ 0 then 0x0000FF00 else 0) |||
    (if opcode &&& 0x40000 ≠ 0 then 0x00FF0000 else 0) |||
    (if opcode &&& 0x80000 ≠ 0 then 0xFF000000 else 0)
  let value :=
    if immediate then
      let imm := opcode &&& 0xFF
      let rotate := ((opcode >>> 8) &&& 0xF) * 2
      mask32 ((imm >>> rotate) ||| (imm <<< (32 - rotate)))
    else cpu.r (opcode &&& 0xF)
  if spsr then (1, cpu, m)
  else
    let new_cpsr := (cpu.cpsr &&& (0xFFFFFFFF ^^^ field_mask)) ||| (value &&& field_mask)
    let new_cpsr :=
      if field_mask &&& 0xFF ≠ 0 then
        let new_mode := new_cpsr &&& 0x1F
        if new_mode ≠ 0x10 ∧ new_mode ≠ 0x11 ∧ new_mode ≠ 0x12 ∧ new_mode ≠ 0x13 ∧
            new_mode ≠ 0x17 ∧ new_mode ≠ 0x1B ∧ new_mode ≠ 0x1F then
          (new_cpsr &&& 0xFFFFFFE0) ||| (cpu.cpsr &&& 0x1F)
        else new_cpsr
      else new_cpsr
    (1, { cpu with cpsr := new_cpsr, thumb_mode := decide (new_cpsr &&& 0x20 ≠ 0) }, m)

/-- Multiply / multiply-accumulate.  The C reads the destination from bits
12-15 (`ARM_RD`) and the accumulator from bits 16-19 (`ARM_RN`); R15 as an
operand reads as the current instruction + 8. -/
def arm_multiply (cpu : Cpu) (m : Mem) (opcode : Nat) : Nat × Cpu × Mem :=
  let accumulate := decide (opcode &&& 0x200000 ≠ 0)
  let set_flags := decide (opcode &&& 0x100000 ≠ 0)
  let rd := (opcode >>> 12) &&& 0xF
  let rn := (opcode >>> 16) &&& 0xF
  let rs := (opcode >>> 8) &&& 0xF
  let rm := opcode &&& 0xF
  let rm_val := if rm = 15 then sub32 (cpu.r 15) 4 else cpu.r rm
  let rs_val := if rs = 15 then sub32 (cpu.r 15) 4 else cpu.r rs
  let rn_val := if rn = 15 then sub32 (cpu.r 15) 4 else cpu.r rn
  let result := mask32 (rm_val * rs_val)
  let result := if accumulate then mask32 (result + rn_val) else result
  let cpu := setR cpu rd result
  let cpu := if set_flags then update_flags_logical cpu result else cpu
  (2, cpu, m)

/-- Single data swap (SWP/SWPB). -/
def arm_swap (cpu : Cpu) (m : Mem) (opcode : Nat) : Nat × Cpu × Mem :=
  let byte := decide (opcode &&& 0x400000 ≠ 0)
  let rn := (opcode >>> 16) &&& 0xF
  let rd := (opcode >>> 12) &&& 0xF
  let rm := opcode &&& 0xF
  let addr := if rn = 15 then sub32 (cpu.r 15) 4 else cpu.r rn
  let rm_val := if rm = 15 then sub32 (cpu.r 15) 4 else cpu.r rm
  if byte then
    let temp := mem_read8 m addr
    let m := mem_write8 memFuel m addr (rm_val &&& 0xFF)
    (4, setR cpu rd temp, m)
  else
    let temp := mem_read32 m (addr &&& 0xFFFFFFFC)
    let m := mem_write32 memFuel m (addr &&& 0xFFFFFFFC) rm_val
    (4, setR cpu rd temp, m)

/-- Data-processing block (src/cpu_core.c lines 396-548).  Operand 2 is
evaluated first - possibly updating the carry flag (immediate rotate with
flags, or a flag-setting register shift through the barrel shifter) - then
the 16-way switch runs, writing Rd unless it is R15, and finally the R15
destination path applies SPSR restore and the invalid-target guard. -/
def arm_data_processing (cpu0 : Cpu) (opcode : Nat) : Nat × Cpu :=
  let immediate := decide (opcode &&& 0x2000000 ≠ 0)
  let set_flags := decide (opcode &&& 0x100000 ≠ 0)
  let opcode_type := (opcode >>> 21) &&& 0xF
  let rn := (opcode >>> 16) &&& 0xF
  let rd := (opcode >>> 12) &&& 0xF
  let p :=
    if immediate then
      let imm := opcode &&& 0xFF
      let rotate := ((opcode >>> 8) &&& 0xF) * 2
      if rotate = 0 then (imm, cpu0)
      else
        let operand2 := mask32 ((imm >>> rotate) ||| (imm <<< (32 - rotate)))
        if set_flags ∧ (opcode_type &&& 0xC) ≠ 0x8 then
          (operand2, set_carry_flag cpu0 (decide ((imm >>> (rotate - 1)) &&& 1 ≠ 0)))
        else (operand2, cpu0)
    else
      let rm := opcode &&& 0xF
      let shift := (opcode >>> 4) &&& 0xFF
      let shift_type := (shift >>> 1) &&& 3
      let shift_amount :=
        if shift &&& 1 ≠ 0 then cpu0.r ((shift >>> 4) &&& 0xF) &&& 0xFF
        else (shift >>> 3) &&& 0x1F
      let rm_val := if rm = 15 then sub32 (cpu0.r 15) 4 else cpu0.r rm
      barrel_shift cpu0 rm_val shift_type shift_amount
        (set_flags && decide ((opcode_type &&& 0xC) ≠ 0x8))
  let operand2 := p.1
  let cpu := p.2
  let op1 := if rn = 15 then sub32 (cpu.r 15) 4 else cpu.r rn
  let q : Nat × Cpu :=
    if opcode_type = 0x0 then
      let result := op1 &&& operand2
      let cpu := if rd ≠ 15 then setR cpu rd result else cpu
      (result, if set_flags then update_flags_logical cpu result else cpu)
    else if opcode_type = 0x1 then
      let result := op1 ^^^ operand2
      let cpu := if rd ≠ 15 then setR cpu rd result else cpu
      (result, if set_flags then update_flags_logical cpu result else cpu)
    else if opcode_type = 0x2 then
      let result := sub32 op1 operand2
      let cpu := if rd ≠ 15 then setR cpu rd result else cpu
      (result, if set_flags then update_flags_sub cpu op1 operand2 result else cpu)
    else if opcode_type = 0x3 then
      let result := sub32 operand2 op1
      let cpu := if rd ≠ 15 then setR cpu rd result else cpu
      (result, if set_flags then update_flags_sub cpu operand2 op1 result else cpu)
    else if opcode_type = 0x4 then
      let result := add32 op1 operand2
      let cpu := if rd ≠ 15 then setR cpu rd result else cpu
      (result, if set_flags then update_flags_add cpu op1 operand2 result else cpu)
    else if opcode_type = 0x5 then
      let result := mask32 (op1 + operand2 + (if cpsr_carry cpu then 1 else 0))
      let cpu := if rd ≠ 15 then setR cpu rd result else cpu
      (result, if set_flags then update_flags_add cpu op1 operand2 result else cpu)
    else if opcode_type = 0x6 then
      let result := sub32 (sub32 op1 operand2) (if cpsr_carry cpu then 0 else 1)
      let cpu := if rd ≠ 15 then setR cpu rd result else cpu
      (result, if set_flags then update_flags_sub cpu op1 operand2 result else cpu)
    else if opcode_type = 0x7 then
      let result := sub32 (sub32 operand2 op1) (if cpsr_carry cpu then 0 else 1)
      let cpu := if rd ≠ 15 then setR cpu rd result else cpu
      (result, if set_flags then update_flags_sub cpu operand2 op1 result else cpu)
    else if opcode_type = 0x8 then
      let result := op1 &&& operand2
      (result, update_flags_logical cpu result)
    else if opcode_type = 0x9 then
      let result := op1 ^^^ operand2
      (result, update_flags_logical cpu result)
    else if opcode_type = 0xA then
      let result := sub32 op1 operand2
      (result, update_flags_sub cpu op1 operand2 result)
    else if opcode_type = 0xB then
      let result := add32 op1 operand2
      (result, update_flags_add cpu op1 operand2 result)
    else if opcode_type = 0xC then
      let result := op1 ||| operand2
      let cpu := if rd ≠ 15 then setR cpu rd result else cpu
      (result, if set_flags then update_flags_logical cpu result else cpu)
    else if opcode_type = 0xD then
      let result := operand2
      let cpu := if rd ≠ 15 then setR cpu rd result else cpu
      (result, if set_flags then update_flags_logical cpu result else cpu)
    else if opcode_type = 0xE then
      let result := op1 &&& (0xFFFFFFFF ^^^ operand2)
      let cpu := if rd ≠ 15 then setR cpu rd result else cpu
      (result, if set_flags then update_flags_logical cpu result else cpu)
    else
      let result := 0xFFFFFFFF ^^^ operand2
      let cpu := if rd ≠ 15 then setR cpu rd result else cpu
      (result, if set_flags then update_flags_logical cpu result else cpu)
  let result := q.1
  let cpu := q.2
  if rd = 15 then
    let cpu :=
      if set_flags then
        { cpu with cpsr := cpu.spsr, thumb_mode := decide (cpu.spsr &&& 0x20 ≠ 0) }
      else cpu
    let new_pc := result &&& 0xFFFFFFFE
    if 0x10000000 ≤ new_pc ∨ (0x04000000 ≤ new_pc ∧ new_pc < 0x08000000) then (1, cpu)
    else
      let cpu := setR cpu 15 new_pc
      let cpu :=
        if ¬set_flags then { cpu with thumb_mode := decide (result &&& 1 ≠ 0) } else cpu
      (1, cpu)
  else (1, cpu)

/-- Single load/store block (src/cpu_core.c lines 551-630), including the
rotated load for misaligned word addresses, the invalid-PC-target guard
(where the C statement `r15 = (r15 - 4) + 4` is the identity), and the
post-index / writeback updates. -/
def arm_load_store (cpu0 : Cpu) (m : Mem) (opcode : Nat) : Nat × Cpu × Mem :=
  let immediate := decide (opcode &&& 0x2000000 = 0)
  let pre_index := decide (opcode &&& 0x1000000 ≠ 0)
  let up := decide (opcode &&& 0x800000 ≠ 0)
  let byte := decide (opcode &&& 0x400000 ≠ 0)
  let writeback := decide (opcode &&& 0x200000 ≠ 0)
  let load := decide (opcode &&& 0x100000 ≠ 0)
  let rn := (opcode >>> 16) &&& 0xF
  let rd := (opcode >>> 12) &&& 0xF
  let p :=
    if immediate then (opcode &&& 0xFFF, cpu0)
    else
      let rm := opcode &&& 0xF
      let shift := (opcode >>> 4) &&& 0xFF
      let shift_type := (shift >>> 1) &&& 3
      let shift_amount := (shift >>> 3) &&& 0x1F
      let rm_val := if rm = 15 then sub32 (cpu0.r 15) 4 else cpu0.r rm
      barrel_shift cpu0 rm_val shift_type shift_amount false
  let offset := p.1
  let cpu := p.2
  let addr := if rn = 15 then sub32 (cpu.r 15) 4 else cpu.r rn
  let addr :=
    if pre_index then (if up then add32 addr offset else sub32 addr offset) else addr
  let q : Cpu × Mem :=
    if load then
      let cpu :=
        if byte then setR cpu rd (mem_read8 m addr)
        else
          let w := mem_read32 m (addr &&& 0xFFFFFFFC)
          let w :=
            if addr &&& 3 ≠ 0 then
              let rotate := (addr &&& 3) * 8
              mask32 ((w >>> rotate) ||| (w <<< (32 - rotate)))
            else w
          setR cpu rd w
      let cpu :=
        if rd = 15 then
          let new_pc := cpu.r 15 &&& 0xFFFFFFFE
          if 0x10000000 ≤ new_pc ∨ (0x04000000 ≤ new_pc ∧ new_pc < 0x08000000) then
            cpu
          else
            let cpu := { cpu with thumb_mode := decide (cpu.r 15 &&& 1 ≠ 0) }
            setR cpu 15 new_pc
        else cpu
      (cpu, m)
    else
      let store_val := if rd = 15 then add32 (cpu.r 15) 4 else cpu.r rd
      if byte then (cpu, mem_write8 memFuel m addr (store_val &&& 0xFF))
      else (cpu, mem_write32 memFuel m (addr &&& 0xFFFFFFFC) store_val)
  let cpu := q.1
  let m := q.2
  let cpu :=
    if ¬pre_index then
      if up then setR cpu rn (add32 (cpu.r rn) offset)
      else setR cpu rn (sub32 (cpu.r rn) offset)
    else if writeback then setR cpu rn addr
    else cpu
  (3, cpu, m)

/-- Number of set bits in the 16-bit register list. -/
def count_rlist (rlist : Nat) : Nat :=
  (List.range 16).countP (fun i => decide (rlist &&& (1 <<< i) ≠ 0))

/-- The register loop of LDM/STM: walk indices i, i+1, ... while idx_count
counts down from 16, transferring each listed register with the pre/post
address bump. -/
def ldm_stm_loop (idx_count i rlist : Nat) (pre_index load : Bool) (addr : Nat)
    (cpu : Cpu) (m : Mem) : Cpu × Mem :=
  match idx_count with
  | 0 => (cpu, m)
  | rest + 1 =>
    if rlist &&& (1 <<< i) ≠ 0 then
      let addr1 := if pre_index then add32 addr 4 else addr
      let (cpu, m) :=
        if load then (setR cpu i (mem_read32 m (addr1 &&& 0xFFFFFFFC)), m)
        else
          let store_val := if i = 15 then add32 (cpu.r 15) 4 else cpu.r i
          (cpu, mem_write32 memFuel m (addr1 &&& 0xFFFFFFFC) store_val)
      let addr2 := if ¬pre_index then add32 addr1 4 else addr1
      ldm_stm_loop rest (i + 1) rlist pre_index load addr2 cpu m
    else ldm_stm_loop rest (i + 1) rlist pre_index load addr cpu m

/-- Block data transfer (src/cpu_core.c lines 633-695): LDM/STM with the
S-bit exception-return semantics and base writeback from the start
address. -/
def arm_block_transfer (cpu : Cpu) (m : Mem) (opcode : Nat) : Nat × Cpu × Mem :=
  let pre_index := decide (opcode &&& 0x1000000 ≠ 0)
  let up := decide (opcode &&& 0x800000 ≠ 0)
  let load_psr := decide (opcode &&& 0x400000 ≠ 0)
  let writeback := decide (opcode &&& 0x200000 ≠ 0)
  let load := decide (opcode &&& 0x100000 ≠ 0)
  let rn := (opcode >>> 16) &&& 0xF
  let rlist := opcode &&& 0xFFFF
  let addr := if rn = 15 then sub32 (cpu.r 15) 4 else cpu.r rn
  let count := count_rlist rlist
  let addr := if ¬up then sub32 addr (count * 4) else addr
  let start_addr := addr
  let (cpu, m) := ldm_stm_loop 16 0 rlist pre_index load addr cpu m
  let cpu :=
    if load ∧ rlist &&& 0x8000 ≠ 0 then
      let current_mode := cpu.cpsr &&& 0x1F
      let is_privileged := current_mode ≠ 0x10 ∧ current_mode ≠ 0x1F
      let cpu :=
        if load_psr ∧ is_privileged then
          { cpu with cpsr := cpu.spsr, thumb_mode := decide (cpu.spsr &&& 0x20 ≠ 0) }
        else { cpu with thumb_mode := decide (cpu.r 15 &&& 1 ≠ 0) }
      setR cpu 15 (cpu.r 15 &&& 0xFFFFFFFE)
    else cpu
  let cpu :=
    if writeback then
      if up then setR cpu rn (add32 start_addr (count * 4)) else setR cpu rn start_addr
    else cpu
  (count + 2, cpu, m)

/-- Branch / branch-with-link (src/cpu_core.c lines 698-718): the 24-bit
offset sign-extended and scaled by 4 relative to PC+8; BL stores PC+4 in
R14; R15 lands at target+8 to keep the pipeline invariant. -/
def arm_branch (cpu : Cpu) (m : Mem) (opcode : Nat) : Nat × Cpu × Mem :=
  let link := decide (opcode &&& 0x1000000 ≠ 0)
  let off24 := opcode &&& 0xFFFFFF
  let soff : Int := (if off24 < 0x800000 then (off24 : Int) else (off24 : Int) - 0x1000000) * 4
  let cpu := if link then setR cpu 14 (sub32 (cpu.r 15) 8) else cpu
  let pc_plus_8 := sub32 (cpu.r 15) 4
  let target := toU32 ((pc_plus_8 : Int) + soff) &&& 0xFFFFFFFE
  (3, setR cpu 15 (add32 target 8), m)

/-- Halfword and signed transfers (src/cpu_core.c lines 721-782). -/
def arm_halfword_transfer (cpu : Cpu) (m : Mem) (opcode : Nat) : Nat × Cpu × Mem :=
  let pre_index := decide (opcode &&& 0x1000000 ≠ 0)
  let up := decide (opcode &&& 0x800000 ≠ 0)
  let immediate := decide (opcode &&& 0x400000 ≠ 0)
  let writeback := decide (opcode &&& 0x200000 ≠ 0)
  let load := decide (opcode &&& 0x100000 ≠ 0)
  let rn := (opcode >>> 16) &&& 0xF
  let rd := (opcode >>> 12) &&& 0xF
  let sh := (opcode >>> 5) &&& 3
  let offset :=
    if immediate then ((opcode >>> 4) &&& 0xF0) ||| (opcode &&& 0xF)
    else
      let rm := opcode &&& 0xF
      if rm = 15 then sub32 (cpu.r 15) 4 else cpu.r rm
  let addr := if rn = 15 then sub32 (cpu.r 15) 4 else cpu.r rn
  let addr :=
    if pre_index then (if up then add32 addr offset else sub32 addr offset) else addr
  let q : Cpu × Mem :=
    if load then
      let cpu :=
        if sh = 1 then setR cpu rd (mem_read16 m (addr &&& 0xFFFFFFFE))
        else if sh = 2 then setR cpu rd (sign_extend8 (mem_read8 m addr))
        else if sh = 3 then setR cpu rd (sign_extend16 (mem_read16 m (addr &&& 0xFFFFFFFE)))
        else cpu
      let cpu :=
        if rd = 15 then
          let cpu := { cpu with thumb_mode := decide (cpu.r rd &&& 1 ≠ 0) }
          setR cpu 15 (cpu.r 15 &&& 0xFFFFFFFE)
        else cpu
      (cpu, m)
    else
      if sh = 1 then
        let store_val := if rd = 15 then add32 (cpu.r 15) 4 else cpu.r rd
        (cpu, mem_write16 memFuel m (addr &&& 0xFFFFFFFE) (store_val &&& 0xFFFF))
      else (cpu, m)
  let cpu := q.1
  let m := q.2
  let cpu :=
    if ¬pre_index then
      if up then setR cpu rn (add32 (cpu.r rn) offset)
      else setR cpu rn (sub32 (cpu.r rn) offset)
    else if writeback ∧ rn ≠ rd then setR cpu rn addr
    else cpu
  (3, cpu, m)

/-! ## BIOS high-level emulation inside the ARM SWI handler -/

/-- First Sqrt loop: `while (bit > val) bit >>= 2`. -/
def bios_sqrt_shrink (bit val : Nat) : Nat :=
  if val < bit then bios_sqrt_shrink (bit >>> 2) val else bit
termination_by bit
decreasing_by
  simp only [Nat.shiftRight_eq_div_pow]
  omega

/-- Second Sqrt loop: the classic digit-by-digit square root. -/
def bios_sqrt_loop (bit val result : Nat) : Nat :=
  if bit = 0 then result
  else if result + bit ≤ val then
    bios_sqrt_loop (bit >>> 2) (val - (result + bit)) ((result >>> 1) + bit)
  else bios_sqrt_loop (bit >>> 2) val (result >>> 1)
termination_by bit
decreasing_by
  all_goals simp only [Nat.shiftRight_eq_div_pow]
  all_goals omega

/-- CpuSet 32-bit loop (also the CpuFastSet loop, whose C body is
identical): copy `count` words, advancing the source unless fixed. -/
def cpu_set_loop32 (count : Nat) (m : Mem) (src dst : Nat) (fixed_src : Bool) : Mem :=
  match count with
  | 0 => m
  | count + 1 =>
    let value := mem_read32 m src
    let m := mem_write32 memFuel m dst value
    cpu_set_loop32 count m (if fixed_src then src else add32 src 4) (add32 dst 4) fixed_src

/-- CpuSet 16-bit loop. -/
def cpu_set_loop16 (count : Nat) (m : Mem) (src dst : Nat) (fixed_src : Bool) : Mem :=
  match count with
  | 0 => m
  | count + 1 =>
    let value := mem_read16 m src
    let m := mem_write16 memFuel m dst value
    cpu_set_loop16 count m (if fixed_src then src else add32 src 2) (add32 dst 2) fixed_src

/-- LZ77 back-reference copy: `for (j = 0; j < len && dst_pos < size; j++)`. -/
def lz77_copy_run (j_count : Nat) (m : Mem) (dst dst_pos disp size : Nat) : Mem × Nat :=
  match j_count with
  | 0 => (m, dst_pos)
  | j + 1 =>
    if dst_pos < size then
      let byte := mem_read8 m (sub32 (add32 dst dst_pos) disp)
      let m := mem_write8 memFuel m (add32 dst dst_pos) byte
      lz77_copy_run j m dst (dst_pos + 1) disp size
    else (m, dst_pos)

/-- LZ77 inner loop over the 8 flag bits. -/
def lz77_inner (i_count flags i : Nat) (m : Mem) (src dst dst_pos size : Nat) :
    Mem × Nat × Nat :=
  match i_count with
  | 0 => (m, src, dst_pos)
  | rest + 1 =>
    if dst_pos < size then
      if flags &&& (0x80 >>> i) ≠ 0 then
        let b1 := mem_read8 m src
        let b2 := mem_read8 m (add32 src 1)
        let src := add32 src 2
        let len := (b1 >>> 4) + 3
        let disp := (((b1 &&& 0xF) <<< 8) ||| b2) + 1
        let (m, dst_pos) := lz77_copy_run len m dst dst_pos disp size
        lz77_inner rest flags (i + 1) m src dst dst_pos size
      else
        let byte := mem_read8 m src
        let src := add32 src 1
        let m := mem_write8 memFuel m (add32 dst dst_pos) byte
        lz77_inner rest flags (i + 1) m src dst (dst_pos + 1) size
    else (m, src, dst_pos)

/-- LZ77 outer loop: `while (dst_pos < size)`; dst_pos grows by at least one
per round, so `size` rounds of fuel reproduce every terminating C run. -/
def lz77_outer (fuel : Nat) (m : Mem) (src dst dst_pos size : Nat) : Mem :=
  match fuel with
  | 0 => m
  | f + 1 =>
    if dst_pos < size then
      let flags := mem_read8 m src
      let src := add32 src 1
      let (m, src, dst_pos) := lz77_inner 8 flags 0 m src dst dst_pos size
      lz77_outer f m src dst dst_pos size
    else m

/-- Run-length fill: `for (i = 0; i < len && dst_pos < size; i++)` writing
one repeated byte. -/
def rl_fill_run (count : Nat) (m : Mem) (dst dst_pos size data : Nat) : Mem × Nat :=
  match count with
  | 0 => (m, dst_pos)
  | c + 1 =>
    if dst_pos < size then
      let m := mem_write8 memFuel m (add32 dst dst_pos) data
      rl_fill_run c m dst (dst_pos + 1) size data
    else (m, dst_pos)

/-- Run-length literal copy. -/
def rl_copy_run (count : Nat) (m : Mem) (src dst dst_pos size : Nat) : Mem × Nat × Nat :=
  match count with
  | 0 => (m, src, dst_pos)
  | c + 1 =>
    if dst_pos < size then
      let data := mem_read8 m src
      let src := add32 src 1
      let m := mem_write8 memFuel m (add32 dst dst_pos) data
      rl_copy_run c m src dst (dst_pos + 1) size
    else (m, src, dst_pos)

/-- RLUnComp outer loop. -/
def rl_outer (fuel : Nat) (m : Mem) (src dst dst_pos size : Nat) : Mem :=
  match fuel with
  | 0 => m
  | f + 1 =>
    if dst_pos < size then
      let flag := mem_read8 m src
      let src := add32 src 1
      if flag &&& 0x80 ≠ 0 then
        let len := (flag &&& 0x7F) + 3
        let data := mem_read8 m src
        let src := add32 src 1
        let (m, dst_pos) := rl_fill_run len m dst dst_pos size data
        rl_outer f m src dst dst_pos size
      else
        let len := (flag &&& 0x7F) + 1
        let (m, src, dst_pos) := rl_copy_run len m src dst dst_pos size
        rl_outer f m src dst dst_pos size
    else m

/-- The ARM SWI block (src/cpu_core.c lines 785-1024): high-level emulation
of the BIOS calls.  Unlisted comments fall through to the default and leave
the CPU untouched.  In the Div case the C negates an `s32`
(undefined at INT_MIN); the model uses exact integer negation, which agrees
everywhere else.  All cases return 3 cycles. -/
def arm_swi (cpu : Cpu) (m : Mem) (comment : Nat) : Nat × Cpu × Mem :=
  if comment = 0x00 then
    (3, { setR (setR cpu 13 0x03007F00) 15 0x08000000 with cpsr := 0xD3 }, m)
  else if comment = 0x01 then (3, cpu, m)
  else if comment = 0x02 ∨ comment = 0x03 ∨ comment = 0x04 ∨ comment = 0x05 then
    (3, { cpu with halted := true }, m)
  else if comment = 0x06 then
    let num := toS32 (cpu.r 0)
    let denom := toS32 (cpu.r 1)
    if denom ≠ 0 then
      let cpu := setR cpu 0 (toU32 (Int.tdiv num denom))
      let cpu := setR cpu 1 (toU32 (Int.tmod num denom))
      let abs_num := if num < 0 then -num else num
      let abs_denom := if denom < 0 then -denom else denom
      (3, setR cpu 3 (toU32 (Int.tdiv abs_num abs_denom)), m)
    else
      (3, setR (setR (setR cpu 0 0) 1 0) 3 0, m)
  else if comment = 0x08 then
    let val := cpu.r 0
    let bit := bios_sqrt_shrink 0x40000000 val
    (3, setR cpu 0 (bios_sqrt_loop bit val 0), m)
  else if comment = 0x0B then
    let src := cpu.r 0
    let dst := cpu.r 1
    let len_mode := cpu.r 2
    let count := len_mode &&& 0x1FFFFF
    let fixed_src := decide (len_mode &&& 0x1000000 ≠ 0)
    let word_size := decide (len_mode &&& 0x4000000 ≠ 0)
    let m :=
      if word_size then cpu_set_loop32 count m src dst fixed_src
      else cpu_set_loop16 count m src dst fixed_src
    (3, cpu, m)
  else if comment = 0x0C then
    let src := cpu.r 0
    let dst := cpu.r 1
    let len_mode := cpu.r 2
    let count := len_mode &&& 0x1FFFFF
    let fixed_src := decide (len_mode &&& 0x1000000 ≠ 0)
    (3, cpu, cpu_set_loop32 count m src dst fixed_src)
  else if comment = 0x0D then (3, setR cpu 0 0xBAAE187F, m)
  else if comment = 0x0E ∨ comment = 0x0F ∨ comment = 0x13 ∨ comment = 0x16 ∨
      comment = 0x17 ∨ comment = 0x18 ∨ comment = 0x19 ∨ comment = 0x1F ∨
      comment = 0x28 ∨ comment = 0x29 then
    (3, cpu, m)
  else if comment = 0x11 ∨ comment = 0x12 then
    let src := cpu.r 0
    let dst := cpu.r 1
    let header := mem_read32 m src
    let size := header >>> 8
    let src := add32 src 4
    (3, cpu, lz77_outer size m src dst 0 size)
  else if comment = 0x14 ∨ comment = 0x15 then
    let src := cpu.r 0
    let dst := cpu.r 1
    let header := mem_read32 m src
    let size := header >>> 8
    let src := add32 src 4
    (3, cpu, rl_outer size m src dst 0 size)
  else (3, cpu, m)

/-- execute_arm (src/cpu_core.c lines 225-1047): condition check, then the
decode priority ladder in exact source order; coprocessor encodings and
anything undecoded return 1 cycle with no state change. -/
def execute_arm (cpu : Cpu) (m : Mem) (opcode : Nat) : Nat × Cpu × Mem :=
  let cond := opcode >>> 28
  if ¬check_condition cpu cond then (1, cpu, m)
  else
    let op_type := (opcode >>> 25) &&& 0x7
    if (opcode &&& 0x0FFFFFF0) = 0x012FFF10 then arm_bx cpu m opcode
    else if (opcode &&& 0x0FBF0FFF) = 0x010F0000 then
      (1, setR cpu ((opcode >>> 12) &&& 0xF) cpu.cpsr, m)
    else if ((opcode &&& 0x0FB00000) = 0x03200000) ∨
        ((opcode &&& 0x0DB00000) = 0x01200000) then
      arm_msr cpu m opcode
    else if (opcode &&& 0x0FC000F0) = 0x00000090 then arm_multiply cpu m opcode
    else if (opcode &&& 0x0FB00FF0) = 0x01000090 then arm_swap cpu m opcode
    else if (op_type &&& 0x6) = 0 then
      let (c, cpu) := arm_data_processing cpu opcode
      (c, cpu, m)
    else if (op_type &&& 0x6) = 0x2 then arm_load_store cpu m opcode
    else if op_type = 0x4 then arm_block_transfer cpu m opcode
    else if op_type = 0x5 then arm_branch cpu m opcode
    else if (opcode &&& 0x0E000090) = 0x00000090 ∧ (opcode &&& 0x60) ≠ 0 then
      arm_halfword_transfer cpu m opcode
    else if op_type = 0x7 ∧ (opcode &&& 0x0F000000) = 0x0F000000 then
      arm_swi cpu m (opcode &&& 0xFF)
    else if (opcode &&& 0x0F000010) = 0x0E000000 then (1, cpu, m)
    else if (opcode &&& 0x0E000000) = 0x0C000000 then (1, cpu, m)
    else if (opcode &&& 0x0F000010) = 0x0E000010 then (1, cpu, m)
    else (1, cpu, m)

/-! ## Thumb instruction execution (src/cpu_core.c execute_thumb) -/

/-- POP body: load the listed low registers from the stack in index order. -/
def thumb_pop_loop (idx_count i rlist : Nat) (cpu : Cpu) (m : Mem) : Cpu × Mem :=
  match idx_count with
  | 0 => (cpu, m)
  | rest + 1 =>
    if rlist &&& (1 <<< i) ≠ 0 then
      let cpu := setR cpu i (mem_read32 m (cpu.r 13 &&& 0xFFFFFFFC))
      let cpu := setR cpu 13 (add32 (cpu.r 13) 4)
      thumb_pop_loop rest (i + 1) rlist cpu m
    else thumb_pop_loop rest (i + 1) rlist cpu m

/-- PUSH body: store the listed low registers, walking i from 7 down to 0. -/
def thumb_push_loop (idx_count i rlist : Nat) (cpu : Cpu) (m : Mem) : Cpu × Mem :=
  match idx_count with
  | 0 => (cpu, m)
  | rest + 1 =>
    if rlist &&& (1 <<< i) ≠ 0 then
      let cpu := setR cpu 13 (sub32 (cpu.r 13) 4)
      let m := mem_write32 memFuel m (cpu.r 13 &&& 0xFFFFFFFC) (cpu.r i)
      thumb_push_loop rest (i - 1) rlist cpu m
    else thumb_push_loop rest (i - 1) rlist cpu m

/-- LDMIA/STMIA body over the eight low registers. -/
def thumb_ldstm_loop (idx_count i rlist : Nat) (load : Bool) (addr : Nat) (cpu : Cpu)
    (m : Mem) : Cpu × Mem × Nat :=
  match idx_count with
  | 0 => (cpu, m, addr)
  | rest + 1 =>
    if rlist &&& (1 <<< i) ≠ 0 then
      let (cpu, m) :=
        if load then (setR cpu i (mem_read32 m (addr &&& 0xFFFFFFFC)), m)
        else (cpu, mem_write32 memFuel m (addr &&& 0xFFFFFFFC) (cpu.r i))
      thumb_ldstm_loop rest (i + 1) rlist load (add32 addr 4) cpu m
    else thumb_ldstm_loop rest (i + 1) rlist load addr cpu m

/-- execute_thumb (src/cpu_core.c lines 1050-1657), with the branch chain in
exact source order.  Notable source behaviours kept here: the
move-shifted-register test `(op >> 13) == 0` also captures the Thumb
add/subtract encodings (bits 11-12 = 11 select the default case of the
shift switch, so they degrade to a flag-setting register copy) and so the
dedicated add/subtract block below it is unreachable; shifts by a register
amount of 32 or more use the Lean `Nat` shift semantics, i.e. the ARM
result 0, where the C relies on undefined behaviour.  On entry R15 is the
instruction address + 6 (cpu_step has already advanced it). -/
def execute_thumb (cpu : Cpu) (m : Mem) (opcode : Nat) : Nat × Cpu × Mem :=
  if (opcode >>> 13) &&& 0x7 = 0x0 then
    let offset := (opcode >>> 6) &&& 0x1F
    let rs := (opcode >>> 3) &&& 0x7
    let rd := opcode &&& 0x7
    let shift_type := (opcode >>> 11) &&& 0x3
    let result :=
      if shift_type = 0 then mask32 (cpu.r rs <<< offset)
      else if shift_type = 1 then (if offset ≠ 0 then cpu.r rs >>> offset else 0)
      else if shift_type = 2 then
        (if offset ≠ 0 then asr32 (cpu.r rs) offset
         else if cpu.r rs &&& 0x80000000 ≠ 0 then 0xFFFFFFFF else 0)
      else cpu.r rs
    (1, update_flags_logical (setR cpu rd result) result, m)
  else if (opcode >>> 11) &&& 0x1F = 0x3 then
    let immediate := decide (opcode &&& 0x400 ≠ 0)
    let subtract := decide (opcode &&& 0x200 ≠ 0)
    let rn_imm := (opcode >>> 6) &&& 0x7
    let rs := (opcode >>> 3) &&& 0x7
    let rd := opcode &&& 0x7
    let operand := if immediate then rn_imm else cpu.r rn_imm
    if subtract then
      let result := sub32 (cpu.r rs) operand
      let cpu := update_flags_sub cpu (cpu.r rs) operand result
      (1, setR cpu rd result, m)
    else
      let result := add32 (cpu.r rs) operand
      let cpu := update_flags_add cpu (cpu.r rs) operand result
      (1, setR cpu rd result, m)
  else if (opcode >>> 13) &&& 0x7 = 0x1 then
    let op_type := (opcode >>> 11) &&& 0x3
    let rd := (opcode >>> 8) &&& 0x7
    let imm := opcode &&& 0xFF
    if op_type = 0 then (1, update_flags_logical (setR cpu rd imm) imm, m)
    else if op_type = 1 then
      let result := sub32 (cpu.r rd) imm
      (1, update_flags_sub cpu (cpu.r rd) imm result, m)
    else if op_type = 2 then
      let result := add32 (cpu.r rd) imm
      let cpu := update_flags_add cpu (cpu.r rd) imm result
      (1, setR cpu rd result, m)
    else
      let result := sub32 (cpu.r rd) imm
      let cpu := update_flags_sub cpu (cpu.r rd) imm result
      (1, setR cpu rd result, m)
  else if (opcode >>> 10) &&& 0x3F = 0x10 then
    let op := (opcode >>> 6) &&& 0xF
    let rs := (opcode >>> 3) &&& 0x7
    let rd := opcode &&& 0x7
    if op = 0x0 then
      let r := cpu.r rd &&& cpu.r rs
      (1, update_flags_logical (setR cpu rd r) r, m)
    else if op = 0x1 then
      let r := cpu.r rd ^^^ cpu.r rs
      (1, update_flags_logical (setR cpu rd r) r, m)
    else if op = 0x2 then
      let r := mask32 (cpu.r rd <<< (cpu.r rs &&& 0xFF))
      (1, update_flags_logical (setR cpu rd r) r, m)
    else if op = 0x3 then
      let r := cpu.r rd >>> (cpu.r rs &&& 0xFF)
      (1, update_flags_logical (setR cpu rd r) r, m)
    else if op = 0x4 then
      let r := asr32 (cpu.r rd) (cpu.r rs &&& 0xFF)
      (1, update_flags_logical (setR cpu rd r) r, m)
    else if op = 0x5 then
      let r := mask32 (cpu.r rd + cpu.r rs + (if cpsr_carry cpu then 1 else 0))
      let cpu := update_flags_add cpu (cpu.r rd) (cpu.r rs) r
      (1, setR cpu rd r, m)
    else if op = 0x6 then
      let r := sub32 (sub32 (cpu.r rd) (cpu.r rs)) (if cpsr_carry cpu then 0 else 1)
      let cpu := update_flags_sub cpu (cpu.r rd) (cpu.r rs) r
      (1, setR cpu rd r, m)
    else if op = 0x7 then
      let shift := cpu.r rs &&& 0xFF
      let r :=
        if shift ≠ 0 then
          let shift := shift &&& 31
          if shift = 0 then cpu.r rd
          else mask32 ((cpu.r rd >>> shift) ||| (cpu.r rd <<< (32 - shift)))
        else cpu.r rd
      (1, update_flags_logical (setR cpu rd r) r, m)
    else if op = 0x8 then
      let r := cpu.r rd &&& cpu.r rs
      (1, update_flags_logical cpu r, m)
    else if op = 0x9 then
      let r := sub32 0 (cpu.r rs)
      let cpu := update_flags_sub cpu 0 (cpu.r rs) r
      (1, setR cpu rd r, m)
    else if op = 0xA then
      let r := sub32 (cpu.r rd) (cpu.r rs)
      (1, update_flags_sub cpu (cpu.r rd) (cpu.r rs) r, m)
    else if op = 0xB then
      let r := add32 (cpu.r rd) (cpu.r rs)
      (1, update_flags_add cpu (cpu.r rd) (cpu.r rs) r, m)
    else if op = 0xC then
      let r := cpu.r rd ||| cpu.r rs
      (1, update_flags_logical (setR cpu rd r) r, m)
    else if op = 0xD then
      let r := mask32 (cpu.r rd * cpu.r rs)
      (2, update_flags_logical (setR cpu rd r) r, m)
    else if op = 0xE then
      let r := cpu.r rd &&& (0xFFFFFFFF ^^^ cpu.r rs)
      (1, update_flags_logical (setR cpu rd r) r, m)
    else
      let r := 0xFFFFFFFF ^^^ cpu.r rs
      (1, update_flags_logical (setR cpu rd r) r, m)
  else if (opcode >>> 10) &&& 0x3F = 0x11 then
    let op := (opcode >>> 8) &&& 0x3
    let h1 := decide (opcode &&& 0x80 ≠ 0)
    let h2 := decide (opcode &&& 0x40 ≠ 0)
    let rs := ((opcode >>> 3) &&& 0x7) ||| (if h2 then 8 else 0)
    let rd := (opcode &&& 0x7) ||| (if h1 then 8 else 0)
    if op = 0 then
      let result := add32 (cpu.r rd) (cpu.r rs)
      if rd = 15 then
        let thumb := decide (result &&& 1 ≠ 0)
        let target := result &&& 0xFFFFFFFE
        let cpu := { cpu with thumb_mode := thumb }
        (1, setR cpu 15 (add32 target (if thumb then 4 else 8)), m)
      else (1, setR cpu rd result, m)
    else if op = 1 then
      let result := sub32 (cpu.r rd) (cpu.r rs)
      (1, update_flags_sub cpu (cpu.r rd) (cpu.r rs) result, m)
    else if op = 2 then
      if rd = 15 then
        let thumb := decide (cpu.r rs &&& 1 ≠ 0)
        let target := cpu.r rs &&& 0xFFFFFFFE
        let cpu := { cpu with thumb_mode := thumb }
        (1, setR cpu 15 (add32 target (if thumb then 4 else 8)), m)
      else (1, setR cpu rd (cpu.r rs), m)
    else
      let addr := cpu.r rs
      let thumb := decide (addr &&& 1 ≠ 0)
      let target := addr &&& 0xFFFFFFFE
      let cpu := { cpu with thumb_mode := thumb }
      (3, setR cpu 15 (add32 target (if thumb then 4 else 8)), m)
  else if (opcode >>> 11) &&& 0x1F = 0x9 then
    let rd := (opcode >>> 8) &&& 0x7
    let offset := (opcode &&& 0xFF) <<< 2
    let addr := add32 (sub32 (cpu.r 15) 2 &&& 0xFFFFFFFC) offset
    (3, setR cpu rd (mem_read32 m (addr &&& 0xFFFFFFFC)), m)
  else if (opcode >>> 12) &&& 0xF = 0x5 ∧ (opcode >>> 9) &&& 1 = 0 then
    let op := (opcode >>> 10) &&& 0x3
    let ro := (opcode >>> 6) &&& 0x7
    let rb := (opcode >>> 3) &&& 0x7
    let rd := opcode &&& 0x7
    let addr := add32 (cpu.r rb) (cpu.r ro)
    if op = 0 then (3, cpu, mem_write32 memFuel m (addr &&& 0xFFFFFFFC) (cpu.r rd))
    else if op = 1 then (3, cpu, mem_write8 memFuel m addr (cpu.r rd &&& 0xFF))
    else if op = 2 then (3, setR cpu rd (mem_read32 m (addr &&& 0xFFFFFFFC)), m)
    else (3, setR cpu rd (mem_read8 m addr), m)
  else if (opcode >>> 12) &&& 0xF = 0x5 ∧ (opcode >>> 9) &&& 1 = 1 then
    let op := (opcode >>> 10) &&& 0x3
    let ro := (opcode >>> 6) &&& 0x7
    let rb := (opcode >>> 3) &&& 0x7
    let rd := opcode &&& 0x7
    let addr := add32 (cpu.r rb) (cpu.r ro)
    if op = 0 then
      (3, cpu, mem_write16 memFuel m (addr &&& 0xFFFFFFFE) (cpu.r rd &&& 0xFFFF))
    else if op = 1 then (3, setR cpu rd (sign_extend8 (mem_read8 m addr)), m)
    else if op = 2 then (3, setR cpu rd (mem_read16 m (addr &&& 0xFFFFFFFE)), m)
    else (3, setR cpu rd (sign_extend16 (mem_read16 m (addr &&& 0xFFFFFFFE))), m)
  else if (opcode >>> 13) &&& 0x7 = 0x3 then
    let load := decide (opcode &&& 0x800 ≠ 0)
    let byte := decide (opcode &&& 0x1000 ≠ 0)
    let offset := (opcode >>> 6) &&& 0x1F
    let rb := (opcode >>> 3) &&& 0x7
    let rd := opcode &&& 0x7
    let offset := if ¬byte then offset * 4 else offset
    let addr := add32 (cpu.r rb) offset
    if load then
      if byte then (3, setR cpu rd (mem_read8 m addr), m)
      else (3, setR cpu rd (mem_read32 m (addr &&& 0xFFFFFFFC)), m)
    else
      if byte then (3, cpu, mem_write8 memFuel m addr (cpu.r rd &&& 0xFF))
      else (3, cpu, mem_write32 memFuel m (addr &&& 0xFFFFFFFC) (cpu.r rd))
  else if (opcode >>> 12) &&& 0xF = 0x8 then
    let load := decide (opcode &&& 0x800 ≠ 0)
    let offset := ((opcode >>> 6) &&& 0x1F) * 2
    let rb := (opcode >>> 3) &&& 0x7
    let rd := opcode &&& 0x7
    let addr := add32 (cpu.r rb) offset
    if load then (3, setR cpu rd (mem_read16 m (addr &&& 0xFFFFFFFE)), m)
    else (3, cpu, mem_write16 memFuel m (addr &&& 0xFFFFFFFE) (cpu.r rd &&& 0xFFFF))
  else if (opcode >>> 12) &&& 0xF = 0x9 then
    let load := decide (opcode &&& 0x800 ≠ 0)
    let rd := (opcode >>> 8) &&& 0x7
    let offset := (opcode &&& 0xFF) * 4
    let addr := add32 (cpu.r 13) offset
    if load then (3, setR cpu rd (mem_read32 m (addr &&& 0xFFFFFFFC)), m)
    else (3, cpu, mem_write32 memFuel m (addr &&& 0xFFFFFFFC) (cpu.r rd))
  else if (opcode >>> 12) &&& 0xF = 0xA then
    let sp := decide (opcode &&& 0x800 ≠ 0)
    let rd := (opcode >>> 8) &&& 0x7
    let offset := (opcode &&& 0xFF) * 4
    if sp then (1, setR cpu rd (add32 (cpu.r 13) offset), m)
    else (1, setR cpu rd (add32 (sub32 (cpu.r 15) 2 &&& 0xFFFFFFFC) offset), m)
  else if opcode &&& 0xFF00 = 0xB000 then
    let negative := decide (opcode &&& 0x80 ≠ 0)
    let offset := (opcode &&& 0x7F) * 4
    if negative then (1, setR cpu 13 (sub32 (cpu.r 13) offset), m)
    else (1, setR cpu 13 (add32 (cpu.r 13) offset), m)
  else if (opcode >>> 12) &&& 0xF = 0xB ∧ (opcode >>> 9) &&& 0x3 = 0x2 then
    let load := decide (opcode &&& 0x800 ≠ 0)
    let pc_lr := decide (opcode &&& 0x100 ≠ 0)
    let rlist := opcode &&& 0xFF
    if load then
      let (cpu, m) := thumb_pop_loop 8 0 rlist cpu m
      if pc_lr then
        let addr := mem_read32 m (cpu.r 13 &&& 0xFFFFFFFC)
        let cpu := setR cpu 13 (add32 (cpu.r 13) 4)
        let thumb := decide (addr &&& 1 ≠ 0)
        let target := addr &&& 0xFFFFFFFE
        let cpu := { cpu with thumb_mode := thumb }
        (3, setR cpu 15 (add32 target (if thumb then 4 else 8)), m)
      else (3, cpu, m)
    else
      let (cpu, m) :=
        if pc_lr then
          let cpu := setR cpu 13 (sub32 (cpu.r 13) 4)
          (cpu, mem_write32 memFuel m (cpu.r 13 &&& 0xFFFFFFFC) (cpu.r 14))
        else (cpu, m)
      let (cpu, m) := thumb_push_loop 8 7 rlist cpu m
      (3, cpu, m)
  else if (opcode >>> 12) &&& 0xF = 0xC then
    let load := decide (opcode &&& 0x800 ≠ 0)
    let rb := (opcode >>> 8) &&& 0x7
    let rlist := opcode &&& 0xFF
    let addr := cpu.r rb
    let (cpu, m, addr) := thumb_ldstm_loop 8 0 rlist load addr cpu m
    let cpu :=
      if load ∧ rlist &&& (1 <<< rb) = 0 then setR cpu rb addr
      else if ¬load then setR cpu rb addr
      else cpu
    (3, cpu, m)
  else if (opcode >>> 12) &&& 0xF = 0xD ∧ (opcode >>> 8) &&& 0xF < 0xE then
    let cond := (opcode >>> 8) &&& 0xF
    let off8 := opcode &&& 0xFF
    let soff : Int := (if off8 < 0x80 then (off8 : Int) else (off8 : Int) - 0x100) * 2
    if check_condition cpu cond then
      let target_addr := toU32 ((sub32 (cpu.r 15) 2 : Int) + soff) &&& 0xFFFFFFFE
      (3, setR cpu 15 (add32 target_addr 4), m)
    else (1, cpu, m)
  else if opcode &&& 0xFF00 = 0xDF00 then
    let comment := opcode &&& 0xFF
    if comment = 0x02 ∨ comment = 0x03 ∨ comment = 0x04 ∨ comment = 0x05 then
      (3, { cpu with halted := true }, m)
    else if comment = 0x06 then
      let num := toS32 (cpu.r 0)
      let denom := toS32 (cpu.r 1)
      if denom ≠ 0 then
        let cpu := setR cpu 0 (toU32 (Int.tdiv num denom))
        let cpu := setR cpu 1 (toU32 (Int.tmod num denom))
        let abs_num := if num < 0 then -num else num
        let abs_denom := if denom < 0 then -denom else denom
        (3, setR cpu 3 (toU32 (Int.tdiv abs_num abs_denom)), m)
      else (3, cpu, m)
    else if comment = 0x08 then
      let val := cpu.r 0
      let bit := bios_sqrt_shrink 0x40000000 val
      (3, setR cpu 0 (bios_sqrt_loop bit val 0), m)
    else if comment = 0x0B ∨ comment = 0x0C then (3, cpu, m)
    else if comment = 0x0D then (3, setR cpu 0 0xBAAE187F, m)
    else (3, cpu, m)
  else if (opcode >>> 11) &&& 0x1F = 0x1C then
    let off11 := opcode &&& 0x7FF
    let soff : Int := (if off11 < 0x400 then (off11 : Int) else (off11 : Int) - 0x800) * 2
    (3, setR cpu 15 (toU32 ((cpu.r 15 : Int) + soff) &&& 0xFFFFFFFE), m)
  else if (opcode >>> 12) &&& 0xF = 0xF then
    let second_instruction := decide (opcode &&& 0x800 ≠ 0)
    if ¬second_instruction then
      let offset_high := opcode &&& 0x7FF
      let sign_extended : Int :=
        (if offset_high < 0x400 then (offset_high : Int) else (offset_high : Int) - 0x800) *
          4096
      let second_half := mem_read16 m (sub32 (cpu.r 15) 4)
      let cpu := setR cpu 15 (add32 (cpu.r 15) 2)
      let is_blx := decide (second_half >>> 12 = 0xE)
      let is_bl := decide (second_half >>> 12 = 0xF)
      if (is_bl ∨ is_blx) ∧ second_half &&& 0x800 ≠ 0 then
        let offset_low := second_half &&& 0x7FF
        let base_pc := sub32 (cpu.r 15) 4
        let target := toU32 ((base_pc : Int) + sign_extended + ((offset_low <<< 1) : Nat))
        let target :=
          if is_blx then (target &&& 0xFFFFFFFC) ||| ((second_half &&& 1) <<< 1)
          else target
        let cpu := setR cpu 14 (sub32 (cpu.r 15) 4 ||| 1)
        if is_blx then
          (3, setR { cpu with thumb_mode := false } 15 (target &&& 0xFFFFFFFC), m)
        else (3, setR { cpu with thumb_mode := true } 15 (target &&& 0xFFFFFFFE), m)
      else (1, cpu, m)
    else (1, cpu, m)
  else (1, cpu, m)

/-! ## cpu_step, cpu_handle_interrupt (src/cpu_core.c lines 1659-2047) and the
frame driver emu_frame (src/main.c lines 100-221).  The debug tracing,
printf logging and the static diagnostic counters in those functions have no
effect on the CPU, memory or interrupt state and are omitted. -/

/-- cpu_step: halted check, Thumb misalignment fix, CPSR mode validation, PC
region validation, BIOS-region return-to-LR handling, exception-vector
handling for pc at least 0x04000000 below the BIOS limit, then fetch at
pc-8 (ARM) or pc-4 (Thumb), pipeline increment, and dispatch.  Returns the
cycle count together with the new CPU and memory. -/
def cpu_step (cpu : Cpu) (m : Mem) : Nat × Cpu × Mem :=
  if cpu.halted then (1, cpu, m)
  else
    let pc := cpu.r 15
    let (cpu, pc) :=
      if cpu.thumb_mode ∧ pc &&& 1 ≠ 0 then
        (setR cpu 15 (pc &&& 0xFFFFFFFE), pc &&& 0xFFFFFFFE)
      else (cpu, pc)
    let mode := cpu.cpsr &&& 0x1F
    let cpu :=
      if mode ≠ 0x10 ∧ mode ≠ 0x11 ∧ mode ≠ 0x12 ∧ mode ≠ 0x13 ∧ mode ≠ 0x17 ∧
          mode ≠ 0x1B ∧ mode ≠ 0x1F then
        { cpu with cpsr := (cpu.cpsr &&& 0xFFFFFFE0) ||| 0x1F }
      else cpu
    let valid_pc := pc < 0x4000 ∨ (0x02000000 ≤ pc ∧ pc < 0x04000000) ∨
        (0x08000000 ≤ pc ∧ pc < 0x0E000000)
    if ¬valid_pc then
      (3, { setR cpu 15 0x08000000 with thumb_mode := false }, m)
    else if pc < 0x4000 ∧ 0x20 ≤ pc then
      if 0x08000000 ≤ cpu.r 14 then
        let thumb := decide (cpu.r 14 &&& 1 ≠ 0)
        let target := cpu.r 14 &&& 0xFFFFFFFE
        let cpu := { cpu with thumb_mode := thumb }
        (3, setR cpu 15 (add32 target (if thumb then 4 else 8)), m)
      else
        (3, { setR cpu 15 0x08000008 with thumb_mode := false }, m)
    else if pc ≤ 0x10 then
      if pc = 0x08 ∧ 0x08000000 ≤ cpu.r 14 then
        let thumb := decide (cpu.r 14 &&& 1 ≠ 0)
        let target := cpu.r 14 &&& 0xFFFFFFFE
        let cpu := { cpu with thumb_mode := thumb }
        (3, setR cpu 15 (add32 target (if thumb then 4 else 8)), m)
      else if 0x08000000 ≤ cpu.r 14 then
        let thumb := decide (cpu.r 14 &&& 1 ≠ 0)
        let target := cpu.r 14 &&& 0xFFFFFFFE
        let cpu := { cpu with thumb_mode := thumb }
        (3, setR cpu 15 (add32 target (if thumb then 4 else 8)), m)
      else
        (3, { setR cpu 15 0x08000008 with thumb_mode := false }, m)
    else if cpu.thumb_mode then
      let opcode := mem_read16 m (sub32 pc 4)
      let cpu := setR cpu 15 (add32 (cpu.r 15) 2)
      execute_thumb cpu m opcode
    else
      let opcode := mem_read32 m (sub32 pc 8)
      let cpu := setR cpu 15 (add32 (cpu.r 15) 4)
      execute_arm cpu m opcode

/-- cpu_handle_interrupt: a no-op when FLAG_I masks IRQs; otherwise saves the
CPSR to SPSR, switches to IRQ mode with IRQs disabled, sets LR to R15+4 and
jumps to the IRQ vector 0x18 in ARM state, clearing the halted flag.  The C
function takes the memory pointer but never touches memory. -/
def cpu_handle_interrupt (cpu : Cpu) : Cpu :=
  if cpu.cpsr &&& FLAG_I ≠ 0 then cpu
  else
    let cpu := { cpu with spsr := cpu.cpsr }
    let cpu := { cpu with cpsr := ((cpu.cpsr &&& 0xFFFFFFE0) ||| 0x12) ||| FLAG_I }
    let cpu := setR cpu 14 (add32 (cpu.r 15) 4)
    let cpu := setR cpu 15 0x00000018
    { cpu with thumb_mode := false, halted := false }

/-- InputState from src/unnamed/part_019. -/
structure InputState where
  current_keys : Nat
  previous_keys : Nat
deriving Repr, DecidableEq

/-- input_update: latch previous keys, read the AI input byte from EWRAM
offset 0x3CF64 (mem_get_ai_input), and write its bitwise complement as a
u16 through the ordinary bus path to KEYINPUT (0x04000130). -/
def input_update (input : InputState) (m : Mem) : InputState × Mem :=
  let input := { input with previous_keys := input.current_keys }
  let ai_input := mask8 (m.ewram 0x3CF64)
  let input := { input with current_keys := ai_input }
  let gba_keys := mask16 (0xFFFF ^^^ ai_input)
  (input, mem_write16 memFuel m 0x04000130 gba_keys)

/-- The inner per-scanline CPU loop of emu_frame (src/main.c lines 197-209):
`while (cycles_left > 0 && !halted) { step; advance timers; maybe take an
IRQ }`.  The loop runs at most cycles_left times since every cpu_step result
is at least one cycle; the fuel argument makes that bound structural. -/
def scanline_cpu_loop (fuel : Nat) (cycles_left : Nat) (cpu : Cpu) (m : Mem) :
    Cpu × Mem :=
  match fuel with
  | 0 => (cpu, m)
  | f + 1 =>
    if cycles_left > 0 ∧ ¬cpu.halted then
      let (cycles, cpu, m) := cpu_step cpu m
      let cycles_left := if cycles > cycles_left then 0 else cycles_left - cycles
      let (ts, ints) := timer_update m.timers cycles m.interrupts
      let m := { m with timers := ts, interrupts := ints }
      let cpu :=
        if interrupt_check m.interrupts ∧ cpu.cpsr &&& 0x80 = 0 then
          cpu_handle_interrupt cpu
        else cpu
      scanline_cpu_loop f cycles_left cpu m
    else (cpu, m)

/-- One iteration of the emu_frame scanline loop (src/main.c lines 182-215):
vcount/DISPSTAT update, VBlank DMA at scanline 160, HBlank DMA for visible
scanlines, the CPU loop with a 1232-cycle budget, and the VBlank interrupt
counter. -/
def emu_scanline (cpu : Cpu) (m : Mem) (fired : Nat) (scanline : Nat) :
    Cpu × Mem × Nat :=
  let m := { m with interrupts := interrupt_update_vcount m.interrupts scanline }
  let m := if scanline = 160 then dma_trigger memFuel m 1 else m
  let m := if scanline < 160 then dma_trigger memFuel m 2 else m
  let (cpu, m) := scanline_cpu_loop 1232 1232 cpu m
  let fired :=
    if scanline = 160 ∧ m.interrupts.if_flag &&& INT_VBLANK ≠ 0 then fired + 1
    else fired
  (cpu, m, fired)

/-- The 228-scanline loop of emu_frame, counting scanlines upward. -/
def emu_frame_loop (count scanline : Nat) (cpu : Cpu) (m : Mem) (fired : Nat) :
    Cpu × Mem × Nat :=
  match count with
  | 0 => (cpu, m, fired)
  | c + 1 =>
    let r := emu_scanline cpu m fired scanline
    emu_frame_loop c (scanline + 1) r.1 r.2.1 r.2.2

/-- emu_frame: input update, then 228 scanlines.  Returns the CPU, the
memory (including interrupt, timer and DMA state), the input state and the
interrupts_fired counter.  gfx_render_frame only reads memory into the
host framebuffer and the frame counter increment touches nothing else. -/
def emu_frame (cpu : Cpu) (m : Mem) (input : InputState) (fired : Nat) :
    Cpu × Mem × InputState × Nat :=
  let p := input_update input m
  let q := emu_frame_loop 228 0 cpu p.2 fired
  (q.1, q.2.1, p.1, q.2.2)

/-! ## Claim C10: SWI 0x06 (Div) with a zero denominator -/

/-- C10: executing the ARM instruction SWI 0x06 (opcode 0xEF000006) with
denominator R1 = 0 does not fault or divide by zero: the decode ladder
reaches the SWI handler, whose Div case takes the explicit zero-denominator
branch and sets R0, R1 and R3 to 0, leaving every other register, the CPSR,
SPSR, Thumb state, halted flag and all of memory unchanged. -/
theorem swi_div_zero_safe (cpu : Cpu) (m : Mem) (h1 : cpu.r 1 = 0) :
    execute_arm cpu m 0xEF000006 = (3, setR (setR (setR cpu 0 0) 1 0) 3 0, m) := by
  have h2 : execute_arm cpu m 0xEF000006 = arm_swi cpu m 6 := rfl
  have h : arm_swi cpu m 6 = (3, setR (setR (setR cpu 0 0) 1 0) 3 0, m) := by
    simp only [arm_swi, h1]
    norm_num [toS32]
  rw [h2, h]

/-- Witness for C10 at the all-zero CPU and memory. -/
theorem swi_div_zero_safe_witness :
    cpu0.r 1 = 0 ∧
      execute_arm cpu0 mem0 0xEF000006 =
        (3, setR (setR (setR cpu0 0 0) 1 0) 3 0, mem0) :=
  ⟨rfl, swi_div_zero_safe cpu0 mem0 rfl⟩

/-! ## Claim C1: R15 as a source operand -/

/-- Concrete machine for C1: EWRAM address 0x02000000 holds the ARM
instruction STR R15, [R0] (0xE580F000, little endian), and R0 points at
EWRAM address 0x02000100. -/
def memC1 : Mem :=
  { mem0 with ewram := fun i =>
      if i = 0 then 0x00 else if i = 1 then 0xF0
      else if i = 2 then 0x80 else if i = 3 then 0xE5 else 0 }

/-- CPU about to execute the instruction at 0x02000000: R15 holds the
instruction address + 8 (ARM pipeline entry convention), system mode. -/
def cpuC1 : Cpu :=
  { cpu0 with
    r := fun i => if i = 15 then 0x02000008 else if i = 0 then 0x02000100 else 0,
    cpsr := 0x1F }

/-- C1 counterexample: stepping STR R15, [R0] at address 0x02000000 stores
0x02000010 = instruction address + 16 (the store path reads R15 after the
pipeline increment and adds another 4), not the claimed instruction
address + 8 = 0x02000008. -/
theorem str_pc_counterexample :
    mem_read32 (cpu_step cpuC1 memC1).2.2 0x02000100 = 0x02000010 ∧
      (0x02000010 : Nat) ≠ 0x02000008 := by decide

/-- Memory family for the amended C1 theorem: EWRAM address 0x02000000
holds ADD Rd, PC, #0 (opcode 0xE28F0000 ||| rd <<< 12, little endian, so
byte 1 carries rd in its high nibble). -/
def memC1add (rd : Nat) : Mem :=
  { mem0 with ewram := fun i =>
      if i = 0 then 0x00 else if i = 1 then rd <<< 4
      else if i = 2 then 0x8F else if i = 3 then 0xE2 else 0 }

/-- C1 (amended): operand reads of R15 by the data-processing path observe
the instruction address plus 8 in ARM state.  Concretely, stepping
ADD Rd, PC, #0 at EWRAM address 0x02000000 (CPU entered with
R15 = 0x02000008) deposits 0x02000008 = instruction address + 8 into Rd
for every destination rd < 15, so the literal-pool base is correct.  The
claim's universal statement over all instructions that read R15 is refuted
by the store path: see the STR R15 counterexample, which stores
instruction address + 16. -/
theorem add_rd_pc_observes_plus8 (rd : Nat) (hrd : rd < 15) :
    (cpu_step cpuC1 (memC1add rd)).2.1.r rd = 0x02000008 := by
  interval_cases rd <;> decide

/-- Witness for the amended C1 theorem: ADD R1, PC, #0 at 0x02000000. -/
theorem add_rd_pc_observes_plus8_witness :
    (1 : Nat) < 15 ∧ (cpu_step cpuC1 (memC1add 1)).2.1.r 1 = 0x02000008 :=
  ⟨by decide, add_rd_pc_observes_plus8 1 (by decide)⟩

/-! ## Claim C5 (amended): the CPU load path applies the alignment rule -/

/-- Memory for the amended C5 theorem: LDR R1, [R0] (0xE5901000) at EWRAM
address 0x02000000, and the data word 0x44332211 at 0x02000200. -/
def memC5L : Mem :=
  { mem0 with ewram := fun i =>
      if i = 0 then 0x00 else if i = 1 then 0x10
      else if i = 2 then 0x90 else if i = 3 then 0xE5
      else if i = 0x200 then 0x11 else if i = 0x201 then 0x22
      else if i = 0x202 then 0x33 else if i = 0x203 then 0x44 else 0 }

/-- CPU entered at 0x02000000 with R0 = 0x02000200 + s (s = misalignment). -/
def cpuC5L (s : Nat) : Cpu :=
  { cpu0 with
    r := fun i =>
      if i = 15 then 0x02000008 else if i = 0 then 0x02000200 + s else 0,
    cpsr := 0x1F }

/-- C5 (amended): it is the CPU load path, not the bus, that applies the
alignment rule (the bus counterexample shows mem_read16 reads the raw
address).  An ARM LDR from address 0x02000200 + s with s < 4 reads the
word at the aligned address (addr & ~3) and rotates it right by
(addr & 3) * 8 bits, the ARM-defined misaligned-load behaviour. -/
theorem ldr_rotated_load (s : Nat) (hs : s < 4) :
    (cpu_step (cpuC5L s) memC5L).2.1.r 1 =
      mask32 ((0x44332211 >>> (s * 8)) ||| (0x44332211 <<< (32 - s * 8))) := by
  interval_cases s <;> decide

/-- Witness for the amended C5 theorem at misalignment 1. -/
theorem ldr_rotated_load_witness :
    (1 : Nat) < 4 ∧
      (cpu_step (cpuC5L 1) memC5L).2.1.r 1 =
        mask32 ((0x44332211 >>> (1 * 8)) ||| (0x44332211 <<< (32 - 1 * 8))) :=
  ⟨by decide, ldr_rotated_load 1 (by decide)⟩

/-! ## Claims C2 and C3: the emu_frame scanline driver -/

/-- The zero input state. -/
def input0 : InputState := { current_keys := 0, previous_keys := 0 }

/-- A halted CPU. -/
def cpuH : Cpu := { cpu0 with halted := true }

/-- Memory for C2: an interrupt is pending (IME = 1, IE and IF share bit 0)
and timer 0 is enabled (TIMER_ENABLE = 0x80); no DMA channel is enabled. -/
def memC2 : Mem :=
  { mem0 with
    interrupts := { ints_zero with ie := 1, if_flag := 1, ime := 1 },
    timers :=
      { t0 := { timer_zero with control := 0x80 },
        t1 := timer_zero, t2 := timer_zero, t3 := timer_zero } }

/-- A halted CPU makes the scanline CPU loop exit immediately. -/
theorem scanline_cpu_loop_halted (fuel cycles_left : Nat) (cpu : Cpu) (m : Mem)
    (h : cpu.halted = true) :
    scanline_cpu_loop fuel cycles_left cpu m = (cpu, m) := by
  cases fuel with
  | zero => rfl
  | succ f => simp [scanline_cpu_loop, h]

/-- dma_trigger is the identity when no channel is enabled. -/
theorem dma_trigger_disabled (fuel : Nat) (m : Mem) (t : Nat)
    (h0 : m.dma.c0.enabled = false) (h1 : m.dma.c1.enabled = false)
    (h2 : m.dma.c2.enabled = false) (h3 : m.dma.c3.enabled = false) :
    dma_trigger fuel m t = m := by
  simp [dma_trigger, DMAState.get, h0, h1, h2, h3]

/-- One emu_frame scanline with a halted CPU and all DMA channels disabled
leaves the CPU, the timers and the DMA state untouched, and preserves bit 1
(HBlank) of the IF register. -/
theorem emu_scanline_halted (cpu : Cpu) (m : Mem) (fired sc : Nat)
    (hh : cpu.halted = true)
    (h0 : m.dma.c0.enabled = false) (h1 : m.dma.c1.enabled = false)
    (h2 : m.dma.c2.enabled = false) (h3 : m.dma.c3.enabled = false) :
    (emu_scanline cpu m fired sc).1 = cpu ∧
      (emu_scanline cpu m fired sc).2.1.timers = m.timers ∧
      (emu_scanline cpu m fired sc).2.1.dma = m.dma ∧
      (emu_scanline cpu m fired sc).2.1.interrupts.if_flag &&& 2 =
        m.interrupts.if_flag &&& 2 := by
  refine ⟨?_, ?_, ?_, ?_⟩ <;>
    simp [emu_scanline, dma_trigger_disabled, scanline_cpu_loop_halted, hh,
      h0, h1, h2, h3, interrupt_update_vcount_hblank_bit]

/-- The scanline loop of emu_frame under the same conditions, by induction
on the number of scanlines. -/
theorem emu_frame_loop_halted (count : Nat) :
    ∀ (sc : Nat) (cpu : Cpu) (m : Mem) (fired : Nat),
      cpu.halted = true →
      m.dma.c0.enabled = false → m.dma.c1.enabled = false →
      m.dma.c2.enabled = false → m.dma.c3.enabled = false →
      (emu_frame_loop count sc cpu m fired).1 = cpu ∧
        (emu_frame_loop count sc cpu m fired).2.1.timers = m.timers ∧
        (emu_frame_loop count sc cpu m fired).2.1.dma = m.dma ∧
        (emu_frame_loop count sc cpu m fired).2.1.interrupts.if_flag &&& 2 =
          m.interrupts.if_flag &&& 2 := by
  induction count with
  | zero => exact fun sc cpu m fired _ _ _ _ _ => ⟨rfl, rfl, rfl, rfl⟩
  | succ c ih =>
    intro sc cpu m fired hh h0 h1 h2 h3
    obtain ⟨e1, e2, e3, e4⟩ := emu_scanline_halted cpu m fired sc hh h0 h1 h2 h3
    obtain ⟨f1, f2, f3, f4⟩ :=
      ih (sc + 1) (emu_scanline cpu m fired sc).1 (emu_scanline cpu m fired sc).2.1
        (emu_scanline cpu m fired sc).2.2
        (by rw [e1]; exact hh) (by rw [e3]; exact h0) (by rw [e3]; exact h1)
        (by rw [e3]; exact h2) (by rw [e3]; exact h3)
    simp only [emu_frame_loop]
    exact ⟨f1.trans e1, f2.trans e2, f3.trans e3, f4.trans e4⟩

/-- The memory after emu_frame's initial input_update on memC2. -/
def memC2w : Mem := (input_update input0 memC2).2

section
attribute [local irreducible] emu_frame_loop emu_scanline scanline_cpu_loop

/-- C2: the emu_frame scanline loop runs `while (cycles_left > 0 &&
!halted)`, so a halted CPU makes every scanline's loop exit immediately:
across a whole frame the halted CPU stays exactly as it was, the enabled
timer never advances, and the pending interrupt (interrupt_check is true,
and the CPSR I bit is clear) never wakes the CPU, because the
cpu_handle_interrupt call sits inside that loop.  This contradicts the
claimed burn-and-wake behaviour; the cpu_execute_frame variant in
src/cpu_core.c lines 2049-2072, which the frontend does not call, checks
interrupts before the halted test and shows the intended semantics. -/
theorem halted_cpu_frame_stalls :
    interrupt_check memC2.interrupts = true ∧
      cpuH.halted = true ∧ cpuH.cpsr &&& 0x80 = 0 ∧
      (emu_frame cpuH memC2 input0 0).1 = cpuH ∧
      (emu_frame cpuH memC2 input0 0).2.1.timers = memC2.timers := by
  obtain ⟨e1, e2, e3, e4⟩ :=
    emu_frame_loop_halted 228 0 cpuH memC2w 0 rfl rfl rfl rfl rfl
  refine ⟨rfl, rfl, rfl, ?_, ?_⟩
  · show (emu_frame_loop 228 0 cpuH memC2w 0).1 = cpuH
    exact e1
  · show (emu_frame_loop 228 0 cpuH memC2w 0).2.1.timers = memC2.timers
    rw [e2]
    decide

/-- Memory for C3: DISPSTAT bit 4 (HBlank IRQ enable) is set, nothing else. -/
def memC3 : Mem := { mem0 with interrupts := { ints_zero with dispstat := 0x10 } }

/-- The memory after emu_frame's initial input_update on memC3. -/
def memC3w : Mem := (input_update input0 memC3).2

/-- C3: the HBlank interrupt is never raised.  First, bit 1 of if_flag is
invariant under interrupt_update_vcount for every state and scanline (the
function's HBlank section is only a comment); second, a whole emu_frame
over the 160 visible scanlines with DISPSTAT bit 4 set and a halted CPU
(so no program write can touch IF) ends with IF bit 1 still clear. -/
theorem hblank_flag_never_raised :
    (∀ (s : InterruptState) (scanline : Nat),
        (interrupt_update_vcount s scanline).if_flag &&& 2 = s.if_flag &&& 2) ∧
      memC3.interrupts.dispstat &&& 0x10 ≠ 0 ∧
      (emu_frame cpuH memC3 input0 0).2.1.interrupts.if_flag &&& 2 = 0 := by
  refine ⟨fun s scanline => interrupt_update_vcount_hblank_bit s scanline,
    by decide, ?_⟩
  obtain ⟨e1, e2, e3, e4⟩ :=
    emu_frame_loop_halted 228 0 cpuH memC3w 0 rfl rfl rfl rfl rfl
  show (emu_frame_loop 228 0 cpuH memC3w 0).2.1.interrupts.if_flag &&& 2 = 0
  rw [e4]
  decide

end

end NE
